import Mathlib

/-!
# fdfs_client: the client facade (client.go)

A shallow embedding of `client.go`.  The collaborators that `client.go` calls but
does not define (connection pools, connections, tasks, `splitFileId`,
`newFileInfo`, the tracker command constants) are fields of an environment `Env`:
arbitrary deterministic state transformers over a hidden world state `σ`.
Every call that `client.go` makes to a collaborator, and every operation on the
storage-pool map and its lock, is recorded as an `Event`, in program order.
-/

namespace FdfsClient

/-! ## Data model -/

/-- A `*connPool` value. -/
abbrev PoolId := Nat

/-- A non-nil `net.Conn` value handed out by a pool. -/
abbrev Conn := Nat

/-- A `[]byte` value. -/
abbrev Bytes := List Nat

/-- A non-nil `*fileInfo` value. -/
abbrev FileInfo := Nat

/-- An error value built by a collaborator of `client.go`. -/
abbrev ExtErr := String

/-- Go `error` values as `client.go` sees them, compared by identity:
`noConnPool` is the value built by `fmt.Errorf("no connPool can be use")` in
`getTrackerConn`, the only error `client.go` builds itself; `ext e` is an error
value handed back by a collaborator. -/
inductive Err where
  | noConnPool
  | ext (e : ExtErr)
  deriving DecidableEq, Repr

/-- A Go result `(T, error)`: `ok v` is `(v, nil)` and `err e` is `(nil, e)`. -/
inductive Res (α : Type) where
  | ok (v : α)
  | err (e : Err)
  deriving DecidableEq, Repr

/-- The result `(T, error)` of a collaborator, as `client.go` receives it. -/
def Res.lift {α : Type} : Except ExtErr α → Res α
  | Except.ok v => Res.ok v
  | Except.error e => Res.err (Err.ext e)

/-- The result `error` of a collaborator, as `client.go` receives it. -/
def liftErr : Option ExtErr → Option Err
  | none => none
  | some e => some (Err.ext e)

/-- Calls made by `client.go`, with what they returned. -/
inductive Event where
  | newFileInfo (fileName : String) (buffer : Option Bytes) (fileExtName : String)
      (fileInfo : Option FileInfo) (err : Option Err)
  | fileInfoClose (fileInfo : Option FileInfo)
  | poolGet (pool : PoolId) (res : Res Conn)
  | sendReq (conn : Conn) (err : Option Err)
  | recvRes (conn : Conn) (err : Option Err)
  | close (conn : Conn)
  | lock
  | unlock
  | mapLookup (addr : String) (res : Option PoolId)
  | mapInsert (addr : String) (pool : PoolId)
  | newConnPool (addr : String) (maxConns : Int) (res : Res PoolId)
  | poolDestory (pool : PoolId)
  deriving DecidableEq, Repr

/-- The fields of `config` that `client.go` reads. -/
structure config where
  trackerAddr : List String
  maxConns : Int
  deriving DecidableEq, Repr

/-- A Go `map[string]*connPool`; the list order is the iteration order of `range`. -/
abbrev PoolMap := List (String × PoolId)

/-- The struct `Client` (the lock is the flag `lockHeld` of `State`). -/
structure Client where
  trackerPools : PoolMap
  storagePools : PoolMap
  config : config
  deriving DecidableEq, Repr

/-- A `*Client` receiver: nil, or the address of the client held in the state. -/
inductive ClientPtr where
  | nil
  | ref
  deriving DecidableEq, Repr

/-- The struct `storageInfo`. -/
structure storageInfo where
  addr : String
  storagePathIndex : Int
  deriving DecidableEq, Repr

/-- The struct `trackerTask`: request fields, then response fields. -/
structure trackerTask where
  cmd : Int
  groupName : String
  remoteFilename : String
  ipAddr : String
  port : Int
  storePathIndex : Int
  deriving DecidableEq, Repr

/-- The struct `storageUploadTask`. -/
structure storageUploadTask where
  fileInfo : Option FileInfo
  storagePathIndex : Int
  fileId : String
  deriving DecidableEq, Repr

/-- The struct `storageDownloadTask`. -/
structure storageDownloadTask where
  groupName : String
  remoteFilename : String
  offset : Int
  downloadBytes : Int
  localFilename : String
  buffer : Option Bytes
  deriving DecidableEq, Repr

/-- The struct `storageDeleteTask`. -/
structure storageDeleteTask where
  groupName : String
  remoteFilename : String
  deriving DecidableEq, Repr

/-- An implementation of the interface `task` for the task type `τ`: both
methods may change the task and the world. -/
structure TaskOps (σ τ : Type) where
  SendReq : τ → Conn → σ → Option ExtErr × τ × σ
  RecvRes : τ → Conn → σ → Option ExtErr × τ × σ

/-- The collaborators of `client.go`. -/
structure Env (σ : Type) where
  splitFileId : String → Except ExtErr (String × String)
  newFileInfo : String → Option Bytes → String → σ → (Option FileInfo × Option ExtErr) × σ
  fileInfoClose : Option FileInfo → σ → σ
  newConnPool : String → Int → σ → Except ExtErr PoolId × σ
  poolGet : PoolId → σ → Except ExtErr Conn × σ
  poolDestory : PoolId → σ → σ
  connClose : Conn → σ → σ
  trackerOps : TaskOps σ trackerTask
  uploadOps : TaskOps σ storageUploadTask
  downloadOps : TaskOps σ storageDownloadTask
  deleteOps : TaskOps σ storageDeleteTask
  TRACKER_PROTO_CMD_SERVICE_QUERY_STORE_WITHOUT_GROUP_ONE : Int
  TRACKER_PROTO_CMD_SERVICE_QUERY_FETCH_ONE : Int

/-- The machine state: the collaborators' world, the client struct, and whether
`storagePoolLock` is held. -/
structure State (σ : Type) where
  world : σ
  client : Client
  lockHeld : Bool

/-- What a computation yields: its return value, the events it emitted, in
order, and the state it leaves. -/
structure Out (σ α : Type) where
  ret : α
  events : List Event
  state : State σ

/-- Computations of `client.go`. -/
def M (σ α : Type) : Type := State σ → Out σ α

/-- Return without effect. -/
def M.pure {σ α : Type} (a : α) : M σ α := fun s => ⟨a, [], s⟩

/-- Sequencing: the events of the second computation follow those of the first. -/
def M.bind {σ α β : Type} (x : M σ α) (f : α → M σ β) : M σ β := fun s =>
  let r := x s
  let r2 := f r.ret r.state
  ⟨r2.ret, r.events ++ r2.events, r2.state⟩

instance {σ : Type} : Monad (M σ) where
  pure := M.pure
  bind := M.bind

/-! ## Primitive actions -/

/-- Read the client struct. -/
def getClient {σ : Type} : M σ Client := fun s => ⟨s.client, [], s⟩

/-- The call `pool.get()`. -/
def poolGet {σ : Type} (env : Env σ) (pool : PoolId) : M σ (Res Conn) := fun s =>
  let r := env.poolGet pool s.world
  ⟨Res.lift r.1, [Event.poolGet pool (Res.lift r.1)], { s with world := r.2 }⟩

/-- The call `pool.Destory()`. -/
def poolDestory {σ : Type} (env : Env σ) (pool : PoolId) : M σ Unit := fun s =>
  ⟨(), [Event.poolDestory pool], { s with world := env.poolDestory pool s.world }⟩

/-- The call `conn.Close()`; its result is dropped by `defer`. -/
def connClose {σ : Type} (env : Env σ) (conn : Conn) : M σ Unit := fun s =>
  ⟨(), [Event.close conn], { s with world := env.connClose conn s.world }⟩

/-- The call `task.SendReq(conn)`. -/
def sendReq {σ τ : Type} (ops : TaskOps σ τ) (task : τ) (conn : Conn) : M σ (Option Err × τ) :=
  fun s =>
    let r := ops.SendReq task conn s.world
    ⟨(liftErr r.1, r.2.1), [Event.sendReq conn (liftErr r.1)], { s with world := r.2.2 }⟩

/-- The call `task.RecvRes(conn)`. -/
def recvRes {σ τ : Type} (ops : TaskOps σ τ) (task : τ) (conn : Conn) : M σ (Option Err × τ) :=
  fun s =>
    let r := ops.RecvRes task conn s.world
    ⟨(liftErr r.1, r.2.1), [Event.recvRes conn (liftErr r.1)], { s with world := r.2.2 }⟩

/-- The call `newConnPool(addr, maxConns)`. -/
def newConnPool {σ : Type} (env : Env σ) (addr : String) (maxConns : Int) : M σ (Res PoolId) :=
  fun s =>
    let r := env.newConnPool addr maxConns s.world
    ⟨Res.lift r.1, [Event.newConnPool addr maxConns (Res.lift r.1)], { s with world := r.2 }⟩

/-- The call `newFileInfo(fileName, buffer, fileExtName)`. -/
def newFileInfo {σ : Type} (env : Env σ) (fileName : String) (buffer : Option Bytes)
    (fileExtName : String) : M σ (Option FileInfo × Option Err) := fun s =>
  let r := env.newFileInfo fileName buffer fileExtName s.world
  ⟨(r.1.1, liftErr r.1.2), [Event.newFileInfo fileName buffer fileExtName r.1.1 (liftErr r.1.2)],
    { s with world := r.2 }⟩

/-- The call `fileInfo.Close()`. -/
def fileInfoClose {σ : Type} (env : Env σ) (fileInfo : Option FileInfo) : M σ Unit := fun s =>
  ⟨(), [Event.fileInfoClose fileInfo], { s with world := env.fileInfoClose fileInfo s.world }⟩

/-- The call `c.storagePoolLock.Lock()`.  The embedding is sequential: one
operation runs at a time, so `Lock` never waits. -/
def lock {σ : Type} : M σ Unit := fun s => ⟨(), [Event.lock], { s with lockHeld := true }⟩

/-- The call `c.storagePoolLock.Unlock()`. -/
def unlock {σ : Type} : M σ Unit := fun s => ⟨(), [Event.unlock], { s with lockHeld := false }⟩

/-- Go map assignment `m[k] = v`. -/
def mapSet : PoolMap → String → PoolId → PoolMap
  | [], k, v => [(k, v)]
  | (k2, v2) :: m, k, v => if k2 = k then (k, v) :: m else (k2, v2) :: mapSet m k v

/-- Go map read `m[k]`. -/
def mapGet : PoolMap → String → Option PoolId
  | [], _ => none
  | (k2, v2) :: m, k => if k2 = k then some v2 else mapGet m k

/-- The read `c.storagePools[addr]`. -/
def mapLookup {σ : Type} (addr : String) : M σ (Option PoolId) := fun s =>
  let r := mapGet s.client.storagePools addr
  ⟨r, [Event.mapLookup addr r], s⟩

/-- The write `c.storagePools[addr] = pool`. -/
def mapInsert {σ : Type} (addr : String) (pool : PoolId) : M σ Unit := fun s =>
  ⟨(), [Event.mapInsert addr pool],
    { s with client := { s.client with storagePools := mapSet s.client.storagePools addr pool } }⟩

/-! ## client.go -/

/-- The loop of `getTrackerConn` over the tracker pools still to visit.  The
second argument is the variable `err`.  The result is `(some trackerConn, nil)`
when the loop left through `break` (`getOne` is true), and `(none, err)` when it
ran out of pools. -/
def getTrackerConnLoop {σ : Type} (env : Env σ) : PoolMap → Option Err → M σ (Option Conn × Option Err)
  | [], err => pure (none, err)
  | (_, trackerPool) :: rest, _ => do
    match ← poolGet env trackerPool with
    | Res.ok trackerConn => pure (some trackerConn, none)
    | Res.err err => getTrackerConnLoop env rest (some err)

/-- The method `getTrackerConn`. -/
def getTrackerConn {σ : Type} (env : Env σ) : M σ (Res Conn) := do
  let c ← getClient
  match ← getTrackerConnLoop env c.trackerPools none with
  | (some trackerConn, _) => pure (Res.ok trackerConn)
  | (none, none) => pure (Res.err Err.noConnPool)
  | (none, some err) => pure (Res.err err)

/-- The method `getStorageConn`. -/
def getStorageConn {σ : Type} (env : Env σ) (storageInfo : storageInfo) : M σ (Res Conn) := do
  lock
  match ← mapLookup storageInfo.addr with
  | some storagePool =>
    unlock
    poolGet env storagePool
  | none =>
    let c ← getClient
    match ← newConnPool env storageInfo.addr c.config.maxConns with
    | Res.err err =>
      unlock
      pure (Res.err err)
    | Res.ok storagePool =>
      mapInsert storageInfo.addr storagePool
      unlock
      poolGet env storagePool

/-- The body of `doTracker` and `doStorage` after the deferred `Close` is
registered: `SendReq`, then `RecvRes`. -/
def runTask {σ τ : Type} (ops : TaskOps σ τ) (task : τ) (conn : Conn) : M σ (Option Err × τ) := do
  match ← sendReq ops task conn with
  | (some err, task) => pure (some err, task)
  | (none, task) =>
    match ← recvRes ops task conn with
    | (some err, task) => pure (some err, task)
    | (none, task) => pure (none, task)

/-- The method `doTracker`; the task is returned with the changes the calls made to it. -/
def doTracker {σ τ : Type} (env : Env σ) (ops : TaskOps σ τ) (task : τ) : M σ (Option Err × τ) := do
  match ← getTrackerConn env with
  | Res.err err => pure (some err, task)
  | Res.ok trackerConn =>
    let r ← runTask ops task trackerConn
    connClose env trackerConn
    pure r

/-- The method `doStorage`; the task is returned with the changes the calls made to it. -/
def doStorage {σ τ : Type} (env : Env σ) (ops : TaskOps σ τ) (task : τ) (storageInfo : storageInfo) :
    M σ (Option Err × τ) := do
  match ← getStorageConn env storageInfo with
  | Res.err err => pure (some err, task)
  | Res.ok storageConn =>
    let r ← runTask ops task storageConn
    connClose env storageConn
    pure r

/-- The method `queryStorageInfoWithTracker`. -/
def queryStorageInfoWithTracker {σ : Type} (env : Env σ) (cmd : Int) (groupName : String)
    (remoteFilename : String) : M σ (Res storageInfo) := do
  let task : trackerTask :=
    { cmd := cmd, groupName := groupName, remoteFilename := remoteFilename,
      ipAddr := "", port := 0, storePathIndex := 0 }
  match ← doTracker env env.trackerOps task with
  | (some err, _) => pure (Res.err err)
  | (none, task) =>
    pure (Res.ok { addr := task.ipAddr ++ ":" ++ toString task.port,
                   storagePathIndex := task.storePathIndex })

/-- The part of `UploadByFilename` and `UploadByBuffer` that follows
`defer fileInfo.Close()`, which is the same in both. -/
def uploadBody {σ : Type} (env : Env σ) (fileInfo : Option FileInfo) (err : Option Err) :
    M σ (String × Option Err) := do
  match err with
  | some err => pure ("", some err)
  | none =>
    match ← queryStorageInfoWithTracker env
        env.TRACKER_PROTO_CMD_SERVICE_QUERY_STORE_WITHOUT_GROUP_ONE "" "" with
    | Res.err err => pure ("", some err)
    | Res.ok storageInfo =>
      let task : storageUploadTask :=
        { fileInfo := fileInfo, storagePathIndex := storageInfo.storagePathIndex, fileId := "" }
      match ← doStorage env env.uploadOps task storageInfo with
      | (some err, _) => pure ("", some err)
      | (none, task) => pure (task.fileId, none)

/-- The method `UploadByFilename`: returns `(fileId, err)`. -/
def UploadByFilename {σ : Type} (env : Env σ) (fileName : String) : M σ (String × Option Err) := do
  let (fileInfo, err) ← newFileInfo env fileName none ""
  let r ← uploadBody env fileInfo err
  fileInfoClose env fileInfo
  pure r

/-- The method `UploadByBuffer`: returns `(fileId, err)`. -/
def UploadByBuffer {σ : Type} (env : Env σ) (buffer : Option Bytes) (fileExtName : String) :
    M σ (String × Option Err) := do
  let (fileInfo, err) ← newFileInfo env "" buffer fileExtName
  let r ← uploadBody env fileInfo err
  fileInfoClose env fileInfo
  pure r

/-- The method `DownloadToFile`: returns `err`. -/
def DownloadToFile {σ : Type} (env : Env σ) (fileId : String) (localFilename : String)
    (offset : Int) (downloadBytes : Int) : M σ (Option Err) := do
  match Res.lift (env.splitFileId fileId) with
  | Res.err err => pure (some err)
  | Res.ok (groupName, remoteFilename) =>
    match ← queryStorageInfoWithTracker env env.TRACKER_PROTO_CMD_SERVICE_QUERY_FETCH_ONE
        groupName remoteFilename with
    | Res.err err => pure (some err)
    | Res.ok storageInfo =>
      let task : storageDownloadTask :=
        { groupName := groupName, remoteFilename := remoteFilename, offset := offset,
          downloadBytes := downloadBytes, localFilename := localFilename, buffer := none }
      let (err, _) ← doStorage env env.downloadOps task storageInfo
      pure err

/-- The method `DownloadToBuffer`: returns `(buffer, err)`, where `none` is the
nil slice. -/
def DownloadToBuffer {σ : Type} (env : Env σ) (fileId : String) (offset : Int)
    (downloadBytes : Int) : M σ (Option Bytes × Option Err) := do
  match Res.lift (env.splitFileId fileId) with
  | Res.err err => pure (none, some err)
  | Res.ok (groupName, remoteFilename) =>
    match ← queryStorageInfoWithTracker env env.TRACKER_PROTO_CMD_SERVICE_QUERY_FETCH_ONE
        groupName remoteFilename with
    | Res.err err => pure (none, some err)
    | Res.ok storageInfo =>
      let task : storageDownloadTask :=
        { groupName := groupName, remoteFilename := remoteFilename, offset := offset,
          downloadBytes := downloadBytes, localFilename := "", buffer := none }
      match ← doStorage env env.downloadOps task storageInfo with
      | (some err, _) => pure (none, some err)
      | (none, task) => pure (task.buffer, none)

/-- The method `DownloadToAllocatedBuffer`: returns `err`. -/
def DownloadToAllocatedBuffer {σ : Type} (env : Env σ) (fileId : String) (buffer : Option Bytes)
    (offset : Int) (downloadBytes : Int) : M σ (Option Err) := do
  match Res.lift (env.splitFileId fileId) with
  | Res.err err => pure (some err)
  | Res.ok (groupName, remoteFilename) =>
    match ← queryStorageInfoWithTracker env env.TRACKER_PROTO_CMD_SERVICE_QUERY_FETCH_ONE
        groupName remoteFilename with
    | Res.err err => pure (some err)
    | Res.ok storageInfo =>
      let task : storageDownloadTask :=
        { groupName := groupName, remoteFilename := remoteFilename, offset := offset,
          downloadBytes := downloadBytes, localFilename := "", buffer := buffer }
      match ← doStorage env env.downloadOps task storageInfo with
      | (some err, _) => pure (some err)
      | (none, _) => pure none

/-- The method `DeleteFile`: returns `err`. -/
def DeleteFile {σ : Type} (env : Env σ) (fileId : String) : M σ (Option Err) := do
  match Res.lift (env.splitFileId fileId) with
  | Res.err err => pure (some err)
  | Res.ok (groupName, remoteFilename) =>
    match ← queryStorageInfoWithTracker env env.TRACKER_PROTO_CMD_SERVICE_QUERY_FETCH_ONE
        groupName remoteFilename with
    | Res.err err => pure (some err)
    | Res.ok storageInfo =>
      let task : storageDeleteTask := { groupName := groupName, remoteFilename := remoteFilename }
      let (err, _) ← doStorage env env.deleteOps task storageInfo
      pure err

/-- One loop of `Destory`: `pool.Destory()` on every value of the map, in
iteration order. -/
def destoryPools {σ : Type} (env : Env σ) : PoolMap → M σ Unit
  | [] => pure ()
  | (_, pool) :: rest => do
    poolDestory env pool
    destoryPools env rest

/-- The method `Destory`. -/
def Destory {σ : Type} (env : Env σ) (c : ClientPtr) : M σ Unit := do
  match c with
  | ClientPtr.nil => pure ()
  | ClientPtr.ref =>
    let cl ← getClient
    destoryPools env cl.trackerPools
    destoryPools env cl.storagePools

/-! ## Observations on traces and drivers used to state the properties -/

/-- Whether the event is a call of a task method (`SendReq` or `RecvRes`). -/
def Event.isTaskCall : Event → Bool
  | Event.sendReq _ _ => true
  | Event.recvRes _ _ => true
  | _ => false

/-- Whether the event releases a connection.  `Close` is the only release call
in `client.go`. -/
def Event.isRelease : Event → Bool
  | Event.close _ => true
  | _ => false

/-- Whether the event belongs to `getStorageConn` before its `get()`: the lock,
the storage-pool map, or the creation of a storage pool. -/
def Event.isStorageAccess : Event → Bool
  | Event.lock => true
  | Event.unlock => true
  | Event.mapLookup _ _ => true
  | Event.mapInsert _ _ => true
  | Event.newConnPool _ _ _ => true
  | _ => false

/-- Whether the event is a `newConnPool` call for `addr` that succeeded. -/
def Event.createdPool (addr : String) : Event → Bool
  | Event.newConnPool a _ (Res.ok _) => decide (a = addr)
  | _ => false

/-- Whether the event is a `get()` call on a pool. -/
def Event.isGet : Event → Bool
  | Event.poolGet _ _ => true
  | _ => false

/-- Replays a trace against the lock, starting with the lock held or not: `Lock`
only when it is free, `Unlock` only when it is held, map reads and writes only
while it is held, `get()` only while it is free, and the lock free at the end. -/
def lockDiscipline : Bool → List Event → Bool
  | held, [] => !held
  | held, Event.lock :: es => !held && lockDiscipline true es
  | held, Event.unlock :: es => held && lockDiscipline false es
  | held, Event.mapLookup _ _ :: es => held && lockDiscipline held es
  | held, Event.mapInsert _ _ :: es => held && lockDiscipline held es
  | held, Event.poolGet _ _ :: es => !held && lockDiscipline held es
  | held, _ :: es => lockDiscipline held es

/-- The `get()` event of a pool that failed with `e`. -/
def failedGet (x : PoolId × ExtErr) : Event := Event.poolGet x.1 (Res.err (Err.ext x.2))

/-- A call of one of the six public operations, with its arguments. -/
inductive Call where
  | UploadByFilename (fileName : String)
  | UploadByBuffer (buffer : Option Bytes) (fileExtName : String)
  | DownloadToFile (fileId : String) (localFilename : String) (offset : Int) (downloadBytes : Int)
  | DownloadToBuffer (fileId : String) (offset : Int) (downloadBytes : Int)
  | DownloadToAllocatedBuffer (fileId : String) (buffer : Option Bytes) (offset : Int)
      (downloadBytes : Int)
  | DeleteFile (fileId : String)

/-- Runs a public operation and keeps the `error` it returns. -/
def Call.run {σ : Type} (env : Env σ) : Call → M σ (Option Err)
  | Call.UploadByFilename fileName => do
    let r ← FdfsClient.UploadByFilename env fileName
    pure r.2
  | Call.UploadByBuffer buffer fileExtName => do
    let r ← FdfsClient.UploadByBuffer env buffer fileExtName
    pure r.2
  | Call.DownloadToFile fileId localFilename offset downloadBytes =>
    FdfsClient.DownloadToFile env fileId localFilename offset downloadBytes
  | Call.DownloadToBuffer fileId offset downloadBytes => do
    let r ← FdfsClient.DownloadToBuffer env fileId offset downloadBytes
    pure r.2
  | Call.DownloadToAllocatedBuffer fileId buffer offset downloadBytes =>
    FdfsClient.DownloadToAllocatedBuffer env fileId buffer offset downloadBytes
  | Call.DeleteFile fileId => FdfsClient.DeleteFile env fileId

/-- Other activity between two calls: any change of the collaborators' world.
It cannot reach the client struct. -/
def worldStep {σ : Type} (f : σ → σ) : M σ Unit := fun s => ⟨(), [], { s with world := f s.world }⟩

/-- A sequence of `getStorageConn` calls on one client, each preceded by
arbitrary other activity of the collaborators. -/
def getStorageConnSeq {σ : Type} (env : Env σ) : List ((σ → σ) × storageInfo) → M σ Unit
  | [] => pure ()
  | (f, storageInfo) :: rest => do
    worldStep f
    let _ ← getStorageConn env storageInfo
    getStorageConnSeq env rest

/-! ## A concrete environment -/

/-- The knobs of a simulated cluster: which identifiers split, which pools hand
out a connection, which endpoints accept a pool, and which connections fail in
each phase of a task. -/
structure Script where
  split : String → Except ExtErr (String × String)
  conn : PoolId → Except ExtErr Conn
  pool : String → Except ExtErr PoolId
  send : Conn → Option ExtErr
  recv : Conn → Option ExtErr

/-- The world of the simulated cluster: the set of destroyed pools. -/
abbrev SimWorld := PoolId → Bool

/-- A pool's own `Destory` when every pool has a state of its own: the state
of that pool alone is changed, by `destroy`. -/
def ownDestory {ρ : Type} (destroy : ρ → ρ) (pool : PoolId) (w : PoolId → ρ) : PoolId → ρ :=
  fun q => if q = pool then destroy (w q) else w q

/-- Task methods of the simulated cluster: a phase fails as the script says;
`onRecv` is what a successful response writes into the task. -/
def Script.ops {τ : Type} (k : Script) (onRecv : τ → τ) : TaskOps SimWorld τ where
  SendReq := fun task conn w => (k.send conn, task, w)
  RecvRes := fun task conn w =>
    match k.recv conn with
    | some e => (some e, task, w)
    | none => (none, onRecv task, w)

/-- The simulated cluster: a destroyed pool refuses `get()`; the tracker
answers with the storage endpoint `10.0.0.5:23000`. -/
def Script.env (k : Script) : Env SimWorld where
  splitFileId := k.split
  newFileInfo := fun fileName _ _ w =>
    if fileName = "missing" then ((none, some "open failed"), w) else ((some 1, none), w)
  fileInfoClose := fun _ w => w
  newConnPool := fun addr _ w => (k.pool addr, w)
  poolGet := fun pool w => if w pool then (Except.error "pool closed", w) else (k.conn pool, w)
  poolDestory := ownDestory (fun _ => true)
  connClose := fun _ w => w
  trackerOps := k.ops (fun t => { t with ipAddr := "10.0.0.5", port := 23000, storePathIndex := 0 })
  uploadOps := k.ops (fun t => { t with fileId := "group1/M00/00/00/a.go" })
  downloadOps := k.ops (fun t => { t with buffer := some [104, 105] })
  deleteOps := k.ops id
  TRACKER_PROTO_CMD_SERVICE_QUERY_STORE_WITHOUT_GROUP_ONE := 101
  TRACKER_PROTO_CMD_SERVICE_QUERY_FETCH_ONE := 102

/-- Splits at the first `/`; an identifier without one is rejected. -/
def splitAtSlash (fileId : String) : Except ExtErr (String × String) :=
  match fileId.data.span (fun ch => decide (ch ≠ '/')) with
  | (g, _ :: r) => Except.ok (String.mk g, String.mk r)
  | (_, []) => Except.error "invalid fileId"

/-- A healthy cluster: tracker pool 1 hands out connection 7, the storage pool
for any endpoint is pool 2 and hands out connection 8, and no task phase fails. -/
def healthy : Script where
  split := splitAtSlash
  conn := fun pool => Except.ok (pool + 6)
  pool := fun _ => Except.ok 2
  send := fun _ => none
  recv := fun _ => none

/-- A client with the tracker pool 1 and no storage pool yet. -/
def client1 : Client :=
  { trackerPools := [("192.168.1.223:22122", 1)], storagePools := [],
    config := { trackerAddr := ["192.168.1.223:22122"], maxConns := 10 } }

/-- The state of `client1` before any call: no pool destroyed, lock free. -/
def state1 : State SimWorld := { world := fun _ => false, client := client1, lockHeld := false }

/-- A cluster whose connections fail in `SendReq`. -/
def sendFails : Script := { healthy with send := fun _ => some "broken pipe" }

/-- A cluster whose connections fail in `RecvRes`. -/
def recvFails : Script := { healthy with recv := fun _ => some "short read" }

/-- A cluster where pool 1 cannot dial and the other pools can. -/
def firstDown : Script :=
  { healthy with conn := fun pool =>
      if pool = 1 then Except.error "dial failed" else Except.ok (pool + 6) }

/-- A cluster where no pool can dial. -/
def allDown : Script := { healthy with conn := fun _ => Except.error "dial failed" }

/-- A cluster where no storage pool can be created. -/
def noPool : Script := { healthy with pool := fun _ => Except.error "bad address" }

/-- A client with three tracker pools and no storage pool yet. -/
def client3 : Client :=
  { trackerPools := [("10.0.0.1:22122", 1), ("10.0.0.2:22122", 2), ("10.0.0.3:22122", 3)],
    storagePools := [],
    config := { trackerAddr := ["10.0.0.1:22122", "10.0.0.2:22122", "10.0.0.3:22122"],
                maxConns := 10 } }

/-- The state of `client3` before any call. -/
def state3 : State SimWorld := { world := fun _ => false, client := client3, lockHeld := false }

/-- The storage endpoint the simulated tracker answers with. -/
def info1 : storageInfo := { addr := "10.0.0.5:23000", storagePathIndex := 0 }

/-- A delete task. -/
def delete1 : storageDeleteTask := { groupName := "group1", remoteFilename := "M00/00/00/a.go" }

/-! # Properties -/

/-! ## The monad -/

@[simp] theorem pure_run {σ α : Type} (a : α) (s : State σ) :
    (pure a : M σ α) s = ⟨a, [], s⟩ := rfl

@[simp] theorem bind_run {σ α β : Type} (x : M σ α) (f : α → M σ β) (s : State σ) :
    (x >>= f) s = ⟨(f (x s).ret (x s).state).ret, (x s).events ++ (f (x s).ret (x s).state).events,
      (f (x s).ret (x s).state).state⟩ := rfl

/-! ## Running a task on a connection -/

theorem runTask_sendErr {σ τ : Type} (ops : TaskOps σ τ) (task : τ) (conn : Conn) (s : State σ)
    (e : ExtErr) (h : (ops.SendReq task conn s.world).1 = some e) :
    runTask ops task conn s =
      ⟨(some (Err.ext e), (ops.SendReq task conn s.world).2.1),
        [Event.sendReq conn (some (Err.ext e))],
        { s with world := (ops.SendReq task conn s.world).2.2 }⟩ := by
  simp [runTask, sendReq, h, liftErr]

theorem runTask_sendOk {σ τ : Type} (ops : TaskOps σ τ) (task : τ) (conn : Conn) (s : State σ)
    (h : (ops.SendReq task conn s.world).1 = none) :
    runTask ops task conn s =
      ⟨(liftErr (ops.RecvRes (ops.SendReq task conn s.world).2.1 conn
            (ops.SendReq task conn s.world).2.2).1,
          (ops.RecvRes (ops.SendReq task conn s.world).2.1 conn
            (ops.SendReq task conn s.world).2.2).2.1),
        [Event.sendReq conn none,
          Event.recvRes conn (liftErr (ops.RecvRes (ops.SendReq task conn s.world).2.1 conn
            (ops.SendReq task conn s.world).2.2).1)],
        { s with world := (ops.RecvRes (ops.SendReq task conn s.world).2.1 conn
            (ops.SendReq task conn s.world).2.2).2.2 }⟩ := by
  simp only [runTask, sendReq, recvRes, bind_run, h, liftErr, pure_run, List.append_nil]
  rcases h2 : (ops.RecvRes (ops.SendReq task conn s.world).2.1 conn
            (ops.SendReq task conn s.world).2.2) with ⟨e2, t2, w2⟩
  cases e2 <;> simp [liftErr]

theorem doTracker_ok {σ τ : Type} (env : Env σ) (ops : TaskOps σ τ) (task : τ) (s : State σ)
    (conn : Conn) (h : (getTrackerConn env s).ret = Res.ok conn) :
    doTracker env ops task s =
      ⟨(runTask ops task conn (getTrackerConn env s).state).ret,
        (getTrackerConn env s).events ++
          ((runTask ops task conn (getTrackerConn env s).state).events ++ [Event.close conn]),
        { (runTask ops task conn (getTrackerConn env s).state).state with
          world := env.connClose conn (runTask ops task conn (getTrackerConn env s).state).state.world }⟩ := by
  simp [doTracker, h, connClose]

theorem doTracker_err {σ τ : Type} (env : Env σ) (ops : TaskOps σ τ) (task : τ) (s : State σ)
    (e : Err) (h : (getTrackerConn env s).ret = Res.err e) :
    doTracker env ops task s =
      ⟨(some e, task), (getTrackerConn env s).events, (getTrackerConn env s).state⟩ := by
  simp [doTracker, h]

theorem doStorage_ok {σ τ : Type} (env : Env σ) (ops : TaskOps σ τ) (task : τ) (info : storageInfo)
    (s : State σ) (conn : Conn) (h : (getStorageConn env info s).ret = Res.ok conn) :
    doStorage env ops task info s =
      ⟨(runTask ops task conn (getStorageConn env info s).state).ret,
        (getStorageConn env info s).events ++
          ((runTask ops task conn (getStorageConn env info s).state).events ++ [Event.close conn]),
        { (runTask ops task conn (getStorageConn env info s).state).state with
          world := env.connClose conn
            (runTask ops task conn (getStorageConn env info s).state).state.world }⟩ := by
  simp [doStorage, h, connClose]

theorem doStorage_err {σ τ : Type} (env : Env σ) (ops : TaskOps σ τ) (task : τ) (info : storageInfo)
    (s : State σ) (e : Err) (h : (getStorageConn env info s).ret = Res.err e) :
    doStorage env ops task info s =
      ⟨(some e, task), (getStorageConn env info s).events, (getStorageConn env info s).state⟩ := by
  simp [doStorage, h]
/-! ## Tracker connections -/

theorem getTrackerConnLoop_spec {σ : Type} (env : Env σ) (pools : PoolMap) (err0 : Option Err)
    (s : State σ) :
    (getTrackerConnLoop env pools err0 s).state.client = s.client ∧
    (getTrackerConnLoop env pools err0 s).state.lockHeld = s.lockHeld ∧
    ((∃ (conn : Conn) (failed : List (PoolId × ExtErr)) (p : PoolId) (rest : List PoolId),
        (getTrackerConnLoop env pools err0 s).ret = (some conn, none) ∧
        pools.map Prod.snd = failed.map Prod.fst ++ p :: rest ∧
        (getTrackerConnLoop env pools err0 s).events =
          failed.map failedGet ++ [Event.poolGet p (Res.ok conn)]) ∨
     (∃ failed : List (PoolId × ExtErr),
        (getTrackerConnLoop env pools err0 s).ret =
          (none, failed.foldl (fun _ x => some (Err.ext x.2)) err0) ∧
        pools.map Prod.snd = failed.map Prod.fst ∧
        (getTrackerConnLoop env pools err0 s).events = failed.map failedGet)) := by
  induction pools generalizing err0 s with
  | nil =>
    refine ⟨rfl, rfl, Or.inr ⟨[], ?_, ?_, ?_⟩⟩ <;> simp [getTrackerConnLoop]
  | cons hd tl ih =>
    obtain ⟨addr, pool⟩ := hd
    rcases hget : env.poolGet pool s.world with ⟨r, w⟩
    cases r with
    | ok conn =>
      refine ⟨?_, ?_, Or.inl ⟨conn, [], pool, tl.map Prod.snd, ?_, ?_, ?_⟩⟩ <;>
        simp [getTrackerConnLoop, poolGet, hget, Res.lift]
    | error e =>
      have hstep : getTrackerConnLoop env ((addr, pool) :: tl) err0 s =
          ⟨(getTrackerConnLoop env tl (some (Err.ext e)) { s with world := w }).ret,
            Event.poolGet pool (Res.err (Err.ext e)) ::
              (getTrackerConnLoop env tl (some (Err.ext e)) { s with world := w }).events,
            (getTrackerConnLoop env tl (some (Err.ext e)) { s with world := w }).state⟩ := by
        simp [getTrackerConnLoop, poolGet, hget, Res.lift]
      obtain ⟨hc, hl, h⟩ := ih (some (Err.ext e)) { s with world := w }
      rw [hstep]
      refine ⟨hc, hl, ?_⟩
      rcases h with ⟨conn, failed, p, rest, h1, h2, h3⟩ | ⟨failed, h1, h2, h3⟩
      · refine Or.inl ⟨conn, (pool, e) :: failed, p, rest, h1, ?_, ?_⟩
        · simp [h2]
        · simp [h3, failedGet]
      · refine Or.inr ⟨(pool, e) :: failed, ?_, ?_, ?_⟩
        · simp [h1]
        · simp [h2]
        · simp [h3, failedGet]

theorem lastErr_cases (failed : List (PoolId × ExtErr)) :
    (failed = [] ∧ failed.foldl (fun _ x => some (Err.ext x.2)) none = none) ∨
    (∃ init p x, failed = init ++ [(p, x)] ∧
      failed.foldl (fun _ x => some (Err.ext x.2)) none = some (Err.ext x)) := by
  rcases List.eq_nil_or_concat failed with h | ⟨init, b, h⟩
  · left; simp [h]
  · right; exact ⟨init, b.1, b.2, by simp [h], by simp [h]⟩

theorem getTrackerConn_spec {σ : Type} (env : Env σ) (s : State σ) :
    (getTrackerConn env s).state.client = s.client ∧
    (getTrackerConn env s).state.lockHeld = s.lockHeld ∧
    ((∃ (conn : Conn) (failed : List (PoolId × ExtErr)) (p : PoolId) (rest : List PoolId),
        (getTrackerConn env s).ret = Res.ok conn ∧
        s.client.trackerPools.map Prod.snd = failed.map Prod.fst ++ p :: rest ∧
        (getTrackerConn env s).events = failed.map failedGet ++ [Event.poolGet p (Res.ok conn)]) ∨
     (∃ (failed : List (PoolId × ExtErr)) (e : Err),
        (getTrackerConn env s).ret = Res.err e ∧
        s.client.trackerPools.map Prod.snd = failed.map Prod.fst ∧
        (getTrackerConn env s).events = failed.map failedGet ∧
        ((failed = [] ∧ e = Err.noConnPool) ∨
          ∃ init p x, failed = init ++ [(p, x)] ∧ e = Err.ext x))) := by
  obtain ⟨hc, hl, h⟩ := getTrackerConnLoop_spec env s.client.trackerPools none s
  have hrun : getTrackerConn env s =
      ⟨(match (getTrackerConnLoop env s.client.trackerPools none s).ret with
          | (some trackerConn, _) => Res.ok trackerConn
          | (none, none) => Res.err Err.noConnPool
          | (none, some err) => Res.err err),
        (getTrackerConnLoop env s.client.trackerPools none s).events,
        (getTrackerConnLoop env s.client.trackerPools none s).state⟩ := by
    simp only [getTrackerConn, getClient, bind_run, List.nil_append]
    rcases hr : (getTrackerConnLoop env s.client.trackerPools none s).ret with ⟨c, e⟩
    cases c <;> cases e <;> simp
  rw [hrun]
  refine ⟨hc, hl, ?_⟩
  rcases h with ⟨conn, failed, p, rest, h1, h2, h3⟩ | ⟨failed, h1, h2, h3⟩
  · exact Or.inl ⟨conn, failed, p, rest, by simp [h1], h2, h3⟩
  · rcases lastErr_cases failed with ⟨hn, hf⟩ | ⟨init, p, x, hn, hf⟩
    · exact Or.inr ⟨failed, Err.noConnPool, by simp [h1, hf], h2, h3, Or.inl ⟨hn, rfl⟩⟩
    · exact Or.inr ⟨failed, Err.ext x, by simp [h1, hf], h2, h3, Or.inr ⟨init, p, x, hn, rfl⟩⟩
/-! ## The storage-pool map -/

theorem mapGet_mapSet_same (m : PoolMap) (k : String) (v : PoolId) :
    mapGet (mapSet m k v) k = some v := by
  induction m with
  | nil => simp [mapSet, mapGet]
  | cons hd tl ih =>
    obtain ⟨k2, v2⟩ := hd
    by_cases h : k2 = k <;> simp [mapSet, mapGet, h, ih]

theorem mapGet_mapSet_other (m : PoolMap) (k k2 : String) (v : PoolId) (h : k2 ≠ k) :
    mapGet (mapSet m k v) k2 = mapGet m k2 := by
  induction m with
  | nil =>
    have h2 : ¬ k = k2 := fun e => h e.symm
    simp [mapSet, mapGet, h2]
  | cons hd tl ih =>
    obtain ⟨k3, v3⟩ := hd
    by_cases h3 : k3 = k
    · subst h3
      have h2 : ¬ k3 = k2 := fun e => h e.symm
      simp [mapSet, mapGet, h2]
    · by_cases h4 : k3 = k2
      · subst h4
        simp [mapSet, mapGet, h3]
      · simp [mapSet, mapGet, h3, h4, ih]

theorem mapSet_absent (m : PoolMap) (k : String) (v : PoolId) (h : mapGet m k = none) :
    mapSet m k v = m ++ [(k, v)] := by
  induction m with
  | nil => simp [mapSet]
  | cons hd tl ih =>
    obtain ⟨k2, v2⟩ := hd
    by_cases h2 : k2 = k
    · simp [mapGet, h2] at h
    · simp [mapGet, h2] at h
      simp [mapSet, h2, ih h]

/-! ## Storage connections -/

theorem getStorageConn_found {σ : Type} (env : Env σ) (info : storageInfo) (s : State σ)
    (pool : PoolId) (h : mapGet s.client.storagePools info.addr = some pool) :
    getStorageConn env info s =
      ⟨Res.lift (env.poolGet pool s.world).1,
        [Event.lock, Event.mapLookup info.addr (some pool), Event.unlock,
          Event.poolGet pool (Res.lift (env.poolGet pool s.world).1)],
        { world := (env.poolGet pool s.world).2, client := s.client, lockHeld := false }⟩ := by
  simp [getStorageConn, lock, mapLookup, unlock, poolGet, h]

theorem getStorageConn_createFailed {σ : Type} (env : Env σ) (info : storageInfo) (s : State σ)
    (e : ExtErr) (h : mapGet s.client.storagePools info.addr = none)
    (hn : (env.newConnPool info.addr s.client.config.maxConns s.world).1 = Except.error e) :
    getStorageConn env info s =
      ⟨Res.err (Err.ext e),
        [Event.lock, Event.mapLookup info.addr none,
          Event.newConnPool info.addr s.client.config.maxConns (Res.err (Err.ext e)), Event.unlock],
        { world := (env.newConnPool info.addr s.client.config.maxConns s.world).2,
          client := s.client, lockHeld := false }⟩ := by
  simp [getStorageConn, lock, mapLookup, unlock, newConnPool, getClient, h, hn, Res.lift]

theorem getStorageConn_created {σ : Type} (env : Env σ) (info : storageInfo) (s : State σ)
    (pool : PoolId) (h : mapGet s.client.storagePools info.addr = none)
    (hn : (env.newConnPool info.addr s.client.config.maxConns s.world).1 = Except.ok pool) :
    getStorageConn env info s =
      ⟨Res.lift (env.poolGet pool
          (env.newConnPool info.addr s.client.config.maxConns s.world).2).1,
        [Event.lock, Event.mapLookup info.addr none,
          Event.newConnPool info.addr s.client.config.maxConns (Res.ok pool),
          Event.mapInsert info.addr pool, Event.unlock,
          Event.poolGet pool (Res.lift (env.poolGet pool
            (env.newConnPool info.addr s.client.config.maxConns s.world).2).1)],
        { world := (env.poolGet pool
            (env.newConnPool info.addr s.client.config.maxConns s.world).2).2,
          client := { s.client with storagePools := mapSet s.client.storagePools info.addr pool },
          lockHeld := false }⟩ := by
  simp [getStorageConn, lock, mapLookup, unlock, newConnPool, getClient, mapInsert, poolGet, h, hn,
    Res.lift]

theorem getStorageConn_paths {σ : Type} (env : Env σ) (info : storageInfo) (s : State σ) :
    (∃ pool r, mapGet s.client.storagePools info.addr = some pool ∧
      (getStorageConn env info s).events =
        [Event.lock, Event.mapLookup info.addr (some pool), Event.unlock, Event.poolGet pool r]) ∨
    (∃ e, mapGet s.client.storagePools info.addr = none ∧
      (getStorageConn env info s).ret = Res.err e ∧
      (getStorageConn env info s).events =
        [Event.lock, Event.mapLookup info.addr none,
          Event.newConnPool info.addr s.client.config.maxConns (Res.err e), Event.unlock]) ∨
    (∃ pool r, mapGet s.client.storagePools info.addr = none ∧
      (getStorageConn env info s).events =
        [Event.lock, Event.mapLookup info.addr none,
          Event.newConnPool info.addr s.client.config.maxConns (Res.ok pool),
          Event.mapInsert info.addr pool, Event.unlock, Event.poolGet pool r]) := by
  cases h : mapGet s.client.storagePools info.addr with
  | some pool =>
    exact Or.inl ⟨pool, _, rfl, by rw [getStorageConn_found env info s pool h]⟩
  | none =>
    cases hn : (env.newConnPool info.addr s.client.config.maxConns s.world).1 with
    | error e =>
      refine Or.inr (Or.inl ⟨Err.ext e, rfl, ?_, ?_⟩) <;>
        rw [getStorageConn_createFailed env info s e h hn]
    | ok pool =>
      exact Or.inr (Or.inr ⟨pool, _, rfl, by rw [getStorageConn_created env info s pool h hn]⟩)

/-! ## Events of the building blocks -/

theorem runTask_events_taskCalls {σ τ : Type} (ops : TaskOps σ τ) (task : τ) (conn : Conn)
    (s : State σ) : ∀ ev ∈ (runTask ops task conn s).events, ev.isTaskCall = true := by
  cases h : (ops.SendReq task conn s.world).1 with
  | some e =>
    rw [runTask_sendErr ops task conn s e h]
    simp [Event.isTaskCall]
  | none =>
    rw [runTask_sendOk ops task conn s h]
    simp [Event.isTaskCall]

theorem failedGet_quiet (failed : List (PoolId × ExtErr)) :
    ∀ ev ∈ failed.map failedGet,
      ev.isRelease = false ∧ ev.isTaskCall = false ∧ ev.isStorageAccess = false := by
  intro ev hev
  obtain ⟨x, _, rfl⟩ := List.mem_map.1 hev
  simp [failedGet, Event.isRelease, Event.isTaskCall, Event.isStorageAccess]

theorem getTrackerConn_events_quiet {σ : Type} (env : Env σ) (s : State σ) :
    ∀ ev ∈ (getTrackerConn env s).events,
      ev.isRelease = false ∧ ev.isTaskCall = false ∧ ev.isStorageAccess = false := by
  obtain ⟨_, _, h⟩ := getTrackerConn_spec env s
  rcases h with ⟨conn, failed, p, rest, _, _, h3⟩ | ⟨failed, e, _, _, h3, _⟩
  · rw [h3]
    intro ev hev
    rcases List.mem_append.1 hev with h | h
    · exact failedGet_quiet failed ev h
    · simp at h
      subst h
      simp [Event.isRelease, Event.isTaskCall, Event.isStorageAccess]
  · rw [h3]
    exact failedGet_quiet failed

theorem getStorageConn_events_quiet {σ : Type} (env : Env σ) (info : storageInfo) (s : State σ) :
    ∀ ev ∈ (getStorageConn env info s).events, ev.isRelease = false ∧ ev.isTaskCall = false := by
  rcases getStorageConn_paths env info s with ⟨pool, r, _, h⟩ | ⟨e, _, _, h⟩ | ⟨pool, r, _, h⟩ <;>
    rw [h] <;> simp [Event.isRelease, Event.isTaskCall]

theorem filter_release_quiet (l : List Event)
    (h : ∀ ev ∈ l, ev.isRelease = false) : l.filter Event.isRelease = [] := by
  rw [List.filter_eq_nil_iff]
  intro ev hev
  simp [h ev hev]

theorem filter_taskCall_all (l : List Event)
    (h : ∀ ev ∈ l, ev.isTaskCall = true) : l.filter Event.isTaskCall = l := by
  rw [List.filter_eq_self]
  exact h

theorem filter_taskCall_quiet (l : List Event)
    (h : ∀ ev ∈ l, ev.isTaskCall = false) : l.filter Event.isTaskCall = [] := by
  rw [List.filter_eq_nil_iff]
  intro ev hev
  simp [h ev hev]

theorem taskCall_not_release (l : List Event)
    (h : ∀ ev ∈ l, ev.isTaskCall = true) : ∀ ev ∈ l, ev.isRelease = false := by
  intro ev hev
  have := h ev hev
  cases ev <;> simp_all [Event.isTaskCall, Event.isRelease]

/-- What `doTracker` and `doStorage` do after a connection `conn` was acquired
with the events `acq`, leaving the state `s1`: the shape of `out`. -/
theorem afterAcquire_shape {σ τ : Type} (env : Env σ) (ops : TaskOps σ τ) (task : τ) (conn : Conn)
    (acq : List Event) (s1 : State σ) (out : Out σ (Option Err × τ))
    (hout : out = ⟨(runTask ops task conn s1).ret,
        acq ++ ((runTask ops task conn s1).events ++ [Event.close conn]),
        { (runTask ops task conn s1).state with
          world := env.connClose conn (runTask ops task conn s1).state.world }⟩)
    (hacq : ∀ ev ∈ acq, ev.isRelease = false ∧ ev.isTaskCall = false) :
    out.events.filter Event.isRelease = [Event.close conn] ∧
    out.events.filter Event.isTaskCall = (runTask ops task conn s1).events ∧
    out.state.world = env.connClose conn (runTask ops task conn s1).state.world := by
  subst hout
  have h1 := runTask_events_taskCalls ops task conn s1
  refine ⟨?_, ?_, rfl⟩
  · simp [List.filter_append, filter_release_quiet acq (fun ev h => (hacq ev h).1),
      filter_release_quiet _ (taskCall_not_release _ h1), Event.isRelease]
  · simp [List.filter_append, filter_taskCall_quiet acq (fun ev h => (hacq ev h).2),
      filter_taskCall_all _ h1, Event.isTaskCall]

/-! ## C1: malformed identifiers -/

/-- C1: when `splitFileId` returns an error for a file identifier, each of
`DownloadToFile`, `DownloadToBuffer`, `DownloadToAllocatedBuffer` and
`DeleteFile` returns exactly that error (`DownloadToBuffer` with a nil slice),
emits no event at all (no pool `get()`, no storage-pool lookup or creation, no
`SendReq`, no `RecvRes`) and leaves the state as it was. -/
theorem malformed_id_rejected_before_network {σ : Type} (env : Env σ) (fileId : String)
    (e : ExtErr) (h : env.splitFileId fileId = Except.error e) (s : State σ) :
    (∀ localFilename offset downloadBytes,
      DownloadToFile env fileId localFilename offset downloadBytes s =
        ⟨some (Err.ext e), [], s⟩) ∧
    (∀ offset downloadBytes,
      DownloadToBuffer env fileId offset downloadBytes s = ⟨(none, some (Err.ext e)), [], s⟩) ∧
    (∀ buffer offset downloadBytes,
      DownloadToAllocatedBuffer env fileId buffer offset downloadBytes s =
        ⟨some (Err.ext e), [], s⟩) ∧
    DeleteFile env fileId s = ⟨some (Err.ext e), [], s⟩ := by
  refine ⟨?_, ?_, ?_, ?_⟩
  · intro localFilename offset downloadBytes
    simp [DownloadToFile, h, Res.lift]
  · intro offset downloadBytes
    simp [DownloadToBuffer, h, Res.lift]
  · intro buffer offset downloadBytes
    simp [DownloadToAllocatedBuffer, h, Res.lift]
  · simp [DeleteFile, h, Res.lift]

/-- The identifier `group1` has no separator: the four operations reject it
without touching the cluster. -/
theorem malformed_id_rejected_witness :
    healthy.env.splitFileId "group1" = Except.error "invalid fileId" ∧
    DownloadToFile healthy.env "group1" "tempFile" 0 0 state1 =
      ⟨some (Err.ext "invalid fileId"), [], state1⟩ ∧
    DownloadToBuffer healthy.env "group1" 0 19 state1 =
      ⟨(none, some (Err.ext "invalid fileId")), [], state1⟩ ∧
    DownloadToAllocatedBuffer healthy.env "group1" (some [0, 0]) 0 2 state1 =
      ⟨some (Err.ext "invalid fileId"), [], state1⟩ ∧
    DeleteFile healthy.env "group1" state1 = ⟨some (Err.ext "invalid fileId"), [], state1⟩ :=
  ⟨rfl,
    (malformed_id_rejected_before_network healthy.env "group1" "invalid fileId" rfl state1).1
      "tempFile" 0 0,
    (malformed_id_rejected_before_network healthy.env "group1" "invalid fileId" rfl state1).2.1
      0 19,
    (malformed_id_rejected_before_network healthy.env "group1" "invalid fileId" rfl state1).2.2.1
      (some [0, 0]) 0 2,
    (malformed_id_rejected_before_network healthy.env "group1" "invalid fileId" rfl state1).2.2.2⟩

/-! ## C3: the two phases of a task -/

/-- The two phases on an acquired connection: the task calls, the returned
error, and when it is nil. -/
theorem runTask_phases {σ τ : Type} (ops : TaskOps σ τ) (task : τ) (conn : Conn) (s : State σ) :
    (runTask ops task conn s).events =
      (match (ops.SendReq task conn s.world).1 with
        | some e => [Event.sendReq conn (some (Err.ext e))]
        | none =>
          [Event.sendReq conn none,
            Event.recvRes conn (liftErr (ops.RecvRes (ops.SendReq task conn s.world).2.1 conn
              (ops.SendReq task conn s.world).2.2).1)]) ∧
    (runTask ops task conn s).ret.1 =
      (match (ops.SendReq task conn s.world).1 with
        | some e => some (Err.ext e)
        | none => liftErr (ops.RecvRes (ops.SendReq task conn s.world).2.1 conn
              (ops.SendReq task conn s.world).2.2).1) ∧
    ((runTask ops task conn s).ret.1 = none ↔
      (ops.SendReq task conn s.world).1 = none ∧
      (ops.RecvRes (ops.SendReq task conn s.world).2.1 conn
        (ops.SendReq task conn s.world).2.2).1 = none) := by
  cases h : (ops.SendReq task conn s.world).1 with
  | some e =>
    rw [runTask_sendErr ops task conn s e h]
    simp
  | none =>
    rw [runTask_sendOk ops task conn s h]
    cases h2 : (ops.RecvRes (ops.SendReq task conn s.world).2.1 conn
        (ops.SendReq task conn s.world).2.2).1 <;> simp [liftErr]

/-- C3: on a successfully acquired connection `conn`, `doTracker` and
`doStorage` make these task calls and no other: `SendReq` on `conn` once, then,
if and only if `SendReq` returned nil, `RecvRes` on the same `conn` once.  They
return the error of `SendReq` if there is one, otherwise the result of
`RecvRes`; so they return nil if and only if both phases returned nil. -/
theorem task_phases_in_order {σ τ : Type} (env : Env σ) (ops : TaskOps σ τ) (task : τ)
    (s : State σ) :
    (∀ conn, (getTrackerConn env s).ret = Res.ok conn →
      (doTracker env ops task s).events.filter Event.isTaskCall =
        (match (ops.SendReq task conn (getTrackerConn env s).state.world).1 with
          | some e => [Event.sendReq conn (some (Err.ext e))]
          | none =>
            [Event.sendReq conn none,
              Event.recvRes conn (liftErr (ops.RecvRes
                (ops.SendReq task conn (getTrackerConn env s).state.world).2.1 conn
                (ops.SendReq task conn (getTrackerConn env s).state.world).2.2).1)]) ∧
      (doTracker env ops task s).ret.1 =
        (match (ops.SendReq task conn (getTrackerConn env s).state.world).1 with
          | some e => some (Err.ext e)
          | none => liftErr (ops.RecvRes
                (ops.SendReq task conn (getTrackerConn env s).state.world).2.1 conn
                (ops.SendReq task conn (getTrackerConn env s).state.world).2.2).1) ∧
      ((doTracker env ops task s).ret.1 = none ↔
        (ops.SendReq task conn (getTrackerConn env s).state.world).1 = none ∧
        (ops.RecvRes (ops.SendReq task conn (getTrackerConn env s).state.world).2.1 conn
          (ops.SendReq task conn (getTrackerConn env s).state.world).2.2).1 = none)) ∧
    (∀ info conn, (getStorageConn env info s).ret = Res.ok conn →
      (doStorage env ops task info s).events.filter Event.isTaskCall =
        (match (ops.SendReq task conn (getStorageConn env info s).state.world).1 with
          | some e => [Event.sendReq conn (some (Err.ext e))]
          | none =>
            [Event.sendReq conn none,
              Event.recvRes conn (liftErr (ops.RecvRes
                (ops.SendReq task conn (getStorageConn env info s).state.world).2.1 conn
                (ops.SendReq task conn (getStorageConn env info s).state.world).2.2).1)]) ∧
      (doStorage env ops task info s).ret.1 =
        (match (ops.SendReq task conn (getStorageConn env info s).state.world).1 with
          | some e => some (Err.ext e)
          | none => liftErr (ops.RecvRes
                (ops.SendReq task conn (getStorageConn env info s).state.world).2.1 conn
                (ops.SendReq task conn (getStorageConn env info s).state.world).2.2).1) ∧
      ((doStorage env ops task info s).ret.1 = none ↔
        (ops.SendReq task conn (getStorageConn env info s).state.world).1 = none ∧
        (ops.RecvRes (ops.SendReq task conn (getStorageConn env info s).state.world).2.1 conn
          (ops.SendReq task conn (getStorageConn env info s).state.world).2.2).1 = none)) := by
  constructor
  · intro conn h
    obtain ⟨_, h2, _⟩ := afterAcquire_shape env ops task conn (getTrackerConn env s).events
      (getTrackerConn env s).state (doTracker env ops task s) (doTracker_ok env ops task s conn h)
      (fun ev hev => ⟨(getTrackerConn_events_quiet env s ev hev).1,
        (getTrackerConn_events_quiet env s ev hev).2.1⟩)
    obtain ⟨p1, p2, p3⟩ := runTask_phases ops task conn (getTrackerConn env s).state
    have hret : (doTracker env ops task s).ret =
        (runTask ops task conn (getTrackerConn env s).state).ret := by
      rw [doTracker_ok env ops task s conn h]
    rw [h2, hret]
    exact ⟨p1, p2, p3⟩
  · intro info conn h
    obtain ⟨_, h2, _⟩ := afterAcquire_shape env ops task conn (getStorageConn env info s).events
      (getStorageConn env info s).state (doStorage env ops task info s)
      (doStorage_ok env ops task info s conn h) (getStorageConn_events_quiet env info s)
    obtain ⟨p1, p2, p3⟩ := runTask_phases ops task conn (getStorageConn env info s).state
    have hret : (doStorage env ops task info s).ret =
        (runTask ops task conn (getStorageConn env info s).state).ret := by
      rw [doStorage_ok env ops task info s conn h]
    rw [h2, hret]
    exact ⟨p1, p2, p3⟩

/-- On a cluster whose connections fail in `RecvRes`, `doTracker` on connection
7 and `doStorage` on connection 8 call `SendReq` then `RecvRes` and return the
error of `RecvRes`. -/
theorem task_phases_in_order_witness :
    ((getTrackerConn recvFails.env state1).ret = Res.ok 7 ∧
      (doTracker recvFails.env recvFails.env.deleteOps delete1 state1).events.filter
          Event.isTaskCall =
        [Event.sendReq 7 none, Event.recvRes 7 (some (Err.ext "short read"))] ∧
      (doTracker recvFails.env recvFails.env.deleteOps delete1 state1).ret.1 =
        some (Err.ext "short read")) ∧
    ((getStorageConn recvFails.env info1 state1).ret = Res.ok 8 ∧
      (doStorage recvFails.env recvFails.env.deleteOps delete1 info1 state1).events.filter
          Event.isTaskCall =
        [Event.sendReq 8 none, Event.recvRes 8 (some (Err.ext "short read"))] ∧
      (doStorage recvFails.env recvFails.env.deleteOps delete1 info1 state1).ret.1 =
        some (Err.ext "short read")) :=
  ⟨⟨rfl,
      ((task_phases_in_order recvFails.env recvFails.env.deleteOps delete1 state1).1 7 rfl).1,
      ((task_phases_in_order recvFails.env recvFails.env.deleteOps delete1 state1).1 7 rfl).2.1⟩,
    ⟨rfl,
      ((task_phases_in_order recvFails.env recvFails.env.deleteOps delete1 state1).2 info1 8
        rfl).1,
      ((task_phases_in_order recvFails.env recvFails.env.deleteOps delete1 state1).2 info1 8
        rfl).2.1⟩⟩

/-! ## C5: the deferred Close -/

/-- C5: in `doTracker` and `doStorage`, when the connection `conn` is acquired,
the events are those of the acquisition, then task calls only, then one
`Close` on `conn` as the last event, and that is the only `Close`; when the
acquisition fails with `e`, `e` is returned and the events are those of the
acquisition alone, none of which is a `Close`, a `SendReq` or a `RecvRes`. -/
theorem close_once_on_every_exit {σ τ : Type} (env : Env σ) (ops : TaskOps σ τ) (task : τ)
    (s : State σ) :
    (∀ conn, (getTrackerConn env s).ret = Res.ok conn →
      ∃ calls, (∀ ev ∈ calls, ev.isTaskCall = true) ∧
        (doTracker env ops task s).events =
          (getTrackerConn env s).events ++ (calls ++ [Event.close conn]) ∧
        (doTracker env ops task s).events.filter Event.isRelease = [Event.close conn]) ∧
    (∀ e, (getTrackerConn env s).ret = Res.err e →
      (doTracker env ops task s).ret.1 = some e ∧
      (doTracker env ops task s).events = (getTrackerConn env s).events ∧
      ∀ ev ∈ (doTracker env ops task s).events, ev.isRelease = false ∧ ev.isTaskCall = false) ∧
    (∀ info conn, (getStorageConn env info s).ret = Res.ok conn →
      ∃ calls, (∀ ev ∈ calls, ev.isTaskCall = true) ∧
        (doStorage env ops task info s).events =
          (getStorageConn env info s).events ++ (calls ++ [Event.close conn]) ∧
        (doStorage env ops task info s).events.filter Event.isRelease = [Event.close conn]) ∧
    (∀ info e, (getStorageConn env info s).ret = Res.err e →
      (doStorage env ops task info s).ret.1 = some e ∧
      (doStorage env ops task info s).events = (getStorageConn env info s).events ∧
      ∀ ev ∈ (doStorage env ops task info s).events,
        ev.isRelease = false ∧ ev.isTaskCall = false) := by
  refine ⟨?_, ?_, ?_, ?_⟩
  · intro conn h
    obtain ⟨h1, _, _⟩ := afterAcquire_shape env ops task conn (getTrackerConn env s).events
      (getTrackerConn env s).state (doTracker env ops task s) (doTracker_ok env ops task s conn h)
      (fun ev hev => ⟨(getTrackerConn_events_quiet env s ev hev).1,
        (getTrackerConn_events_quiet env s ev hev).2.1⟩)
    refine ⟨(runTask ops task conn (getTrackerConn env s).state).events,
      runTask_events_taskCalls ops task conn _, ?_, h1⟩
    rw [doTracker_ok env ops task s conn h]
  · intro e h
    rw [doTracker_err env ops task s e h]
    exact ⟨rfl, rfl, fun ev hev => ⟨(getTrackerConn_events_quiet env s ev hev).1,
        (getTrackerConn_events_quiet env s ev hev).2.1⟩⟩
  · intro info conn h
    obtain ⟨h1, _, _⟩ := afterAcquire_shape env ops task conn (getStorageConn env info s).events
      (getStorageConn env info s).state (doStorage env ops task info s)
      (doStorage_ok env ops task info s conn h) (getStorageConn_events_quiet env info s)
    refine ⟨(runTask ops task conn (getStorageConn env info s).state).events,
      runTask_events_taskCalls ops task conn _, ?_, h1⟩
    rw [doStorage_ok env ops task info s conn h]
  · intro info e h
    rw [doStorage_err env ops task info s e h]
    exact ⟨rfl, rfl, getStorageConn_events_quiet env info s⟩

/-- With a healthy cluster `doTracker` and `doStorage` close their connection
once, last; with no reachable tracker pool `doTracker` returns the error of the
pool, and with no storage pool to create `doStorage` returns the creation error. -/
theorem close_once_on_every_exit_witness :
    ((getTrackerConn healthy.env state1).ret = Res.ok 7 ∧
      (doTracker healthy.env healthy.env.deleteOps delete1 state1).events.filter Event.isRelease
        = [Event.close 7]) ∧
    ((getTrackerConn allDown.env state1).ret = Res.err (Err.ext "dial failed") ∧
      (doTracker allDown.env allDown.env.deleteOps delete1 state1).ret.1 =
        some (Err.ext "dial failed") ∧
      (doTracker allDown.env allDown.env.deleteOps delete1 state1).events =
        (getTrackerConn allDown.env state1).events) ∧
    ((getStorageConn healthy.env info1 state1).ret = Res.ok 8 ∧
      (doStorage healthy.env healthy.env.deleteOps delete1 info1 state1).events.filter
        Event.isRelease = [Event.close 8]) ∧
    ((getStorageConn noPool.env info1 state1).ret = Res.err (Err.ext "bad address") ∧
      (doStorage noPool.env noPool.env.deleteOps delete1 info1 state1).ret.1 =
        some (Err.ext "bad address") ∧
      (doStorage noPool.env noPool.env.deleteOps delete1 info1 state1).events =
        (getStorageConn noPool.env info1 state1).events) :=
  ⟨⟨rfl, ((close_once_on_every_exit healthy.env healthy.env.deleteOps delete1 state1).1 7
      rfl).choose_spec.2.2⟩,
    ⟨rfl, ((close_once_on_every_exit allDown.env allDown.env.deleteOps delete1 state1).2.1
      (Err.ext "dial failed") rfl).1,
      ((close_once_on_every_exit allDown.env allDown.env.deleteOps delete1 state1).2.1
      (Err.ext "dial failed") rfl).2.1⟩,
    ⟨rfl, ((close_once_on_every_exit healthy.env healthy.env.deleteOps delete1 state1).2.2.1
      info1 8 rfl).choose_spec.2.2⟩,
    ⟨rfl, ((close_once_on_every_exit noPool.env noPool.env.deleteOps delete1 state1).2.2.2
      info1 (Err.ext "bad address") rfl).1,
      ((close_once_on_every_exit noPool.env noPool.env.deleteOps delete1 state1).2.2.2
      info1 (Err.ext "bad address") rfl).2.1⟩⟩

/-! ## C4: the release after an error -/

/-- C4, as the code has it: whenever `doTracker` or `doStorage` acquired the
connection `conn`, whatever `SendReq` and `RecvRes` returned, the only release
is one `Close` on `conn`, and the world it leaves is the one `Close` makes from
the world the task left: the release on an error path is the same call, with
the same argument, as on the success path. -/
theorem release_is_close_on_every_path {σ τ : Type} (env : Env σ) (ops : TaskOps σ τ) (task : τ)
    (s : State σ) :
    (∀ conn, (getTrackerConn env s).ret = Res.ok conn →
      (doTracker env ops task s).events.filter Event.isRelease = [Event.close conn] ∧
      (doTracker env ops task s).state.world =
        env.connClose conn (runTask ops task conn (getTrackerConn env s).state).state.world) ∧
    (∀ info conn, (getStorageConn env info s).ret = Res.ok conn →
      (doStorage env ops task info s).events.filter Event.isRelease = [Event.close conn] ∧
      (doStorage env ops task info s).state.world =
        env.connClose conn
          (runTask ops task conn (getStorageConn env info s).state).state.world) := by
  constructor
  · intro conn h
    obtain ⟨h1, _, h3⟩ := afterAcquire_shape env ops task conn (getTrackerConn env s).events
      (getTrackerConn env s).state (doTracker env ops task s) (doTracker_ok env ops task s conn h)
      (fun ev hev => ⟨(getTrackerConn_events_quiet env s ev hev).1,
        (getTrackerConn_events_quiet env s ev hev).2.1⟩)
    exact ⟨h1, h3⟩
  · intro info conn h
    obtain ⟨h1, _, h3⟩ := afterAcquire_shape env ops task conn (getStorageConn env info s).events
      (getStorageConn env info s).state (doStorage env ops task info s)
      (doStorage_ok env ops task info s conn h) (getStorageConn_events_quiet env info s)
    exact ⟨h1, h3⟩

/-- On a cluster whose connections fail in `SendReq`, the release is still the
one `Close`. -/
theorem release_is_close_witness :
    ((getTrackerConn sendFails.env state1).ret = Res.ok 7 ∧
      (doTracker sendFails.env sendFails.env.deleteOps delete1 state1).events.filter
        Event.isRelease = [Event.close 7]) ∧
    ((getStorageConn sendFails.env info1 state1).ret = Res.ok 8 ∧
      (doStorage sendFails.env sendFails.env.deleteOps delete1 info1 state1).events.filter
        Event.isRelease = [Event.close 8]) :=
  ⟨⟨rfl, ((release_is_close_on_every_path sendFails.env sendFails.env.deleteOps delete1
      state1).1 7 rfl).1⟩,
    ⟨rfl, ((release_is_close_on_every_path sendFails.env sendFails.env.deleteOps delete1
      state1).2 info1 8 rfl).1⟩⟩

/-- C4 as stated fails: `SendReq` fails in one run and `RecvRes` in another,
both phases succeed in a third, and the release actions of the three runs are
the same single `Close`, in `doStorage` and in `doTracker`. -/
theorem release_same_on_error_and_success :
    (doStorage sendFails.env sendFails.env.deleteOps delete1 info1 state1).ret.1 =
      some (Err.ext "broken pipe") ∧
    (doStorage recvFails.env recvFails.env.deleteOps delete1 info1 state1).ret.1 =
      some (Err.ext "short read") ∧
    (doStorage healthy.env healthy.env.deleteOps delete1 info1 state1).ret.1 = none ∧
    (doStorage sendFails.env sendFails.env.deleteOps delete1 info1 state1).events.filter
        Event.isRelease =
      (doStorage healthy.env healthy.env.deleteOps delete1 info1 state1).events.filter
        Event.isRelease ∧
    (doStorage recvFails.env recvFails.env.deleteOps delete1 info1 state1).events.filter
        Event.isRelease =
      (doStorage healthy.env healthy.env.deleteOps delete1 info1 state1).events.filter
        Event.isRelease ∧
    (doTracker sendFails.env sendFails.env.deleteOps delete1 state1).ret.1 =
      some (Err.ext "broken pipe") ∧
    (doTracker healthy.env healthy.env.deleteOps delete1 state1).ret.1 = none ∧
    (doTracker sendFails.env sendFails.env.deleteOps delete1 state1).events.filter
        Event.isRelease =
      (doTracker healthy.env healthy.env.deleteOps delete1 state1).events.filter
        Event.isRelease := by
  decide

/-! ## C6, C7: choosing a tracker -/

/-- C6: `getTrackerConn` succeeds if and only if one of the `get()` calls it
makes succeeds; when it returns `conn`, the pools it visited are an initial
segment of the tracker pools in iteration order, `get()` failed on all of them
but the last, the last one produced `conn`, and no `get()` follows: the pools
after it (`rest`) are not visited. -/
theorem first_tracker_success_wins {σ : Type} (env : Env σ) (s : State σ) :
    ((∃ conn, (getTrackerConn env s).ret = Res.ok conn) ↔
      ∃ p conn, Event.poolGet p (Res.ok conn) ∈ (getTrackerConn env s).events) ∧
    (∀ conn, (getTrackerConn env s).ret = Res.ok conn →
      ∃ (failed : List (PoolId × ExtErr)) (p : PoolId) (rest : List PoolId),
        s.client.trackerPools.map Prod.snd = failed.map Prod.fst ++ p :: rest ∧
        (getTrackerConn env s).events =
          failed.map failedGet ++ [Event.poolGet p (Res.ok conn)]) := by
  obtain ⟨_, _, h⟩ := getTrackerConn_spec env s
  rcases h with ⟨conn, failed, p, rest, h1, h2, h3⟩ | ⟨failed, e, h1, h2, h3, _⟩
  · refine ⟨⟨fun _ => ⟨p, conn, by simp [h3]⟩, fun _ => ⟨conn, h1⟩⟩, ?_⟩
    intro conn2 hc
    rw [h1] at hc
    cases hc
    exact ⟨failed, p, rest, h2, h3⟩
  · refine ⟨⟨?_, ?_⟩, ?_⟩
    · rintro ⟨conn, hc⟩
      rw [h1] at hc
      cases hc
    · rintro ⟨p, conn, hmem⟩
      rw [h3] at hmem
      obtain ⟨x, _, hx⟩ := List.mem_map.1 hmem
      simp [failedGet] at hx
    · intro conn hc
      rw [h1] at hc
      cases hc

/-- With pool 1 down and three tracker pools, the connection of pool 2 is
returned after one failed and one successful `get()`; pool 3 is not visited. -/
theorem first_tracker_success_wins_witness :
    (getTrackerConn firstDown.env state3).ret = Res.ok 8 ∧
    ∃ (failed : List (PoolId × ExtErr)) (p : PoolId) (rest : List PoolId),
      state3.client.trackerPools.map Prod.snd = failed.map Prod.fst ++ p :: rest ∧
      (getTrackerConn firstDown.env state3).events =
        failed.map failedGet ++ [Event.poolGet p (Res.ok 8)] :=
  ⟨rfl, (first_tracker_success_wins firstDown.env state3).2 8 rfl⟩

/-- C7: when `getTrackerConn` fails with `e`, it called `get()` on every
tracker pool, in iteration order, and every call failed; `e` is the error of
the last pool tried, or the generic error when there was no pool to try.  The
generic error is returned if and only if the client has no tracker pool. -/
theorem tracker_failure_reports_last_error {σ : Type} (env : Env σ) (s : State σ) :
    (∀ e, (getTrackerConn env s).ret = Res.err e →
      ∃ failed : List (PoolId × ExtErr),
        s.client.trackerPools.map Prod.snd = failed.map Prod.fst ∧
        (getTrackerConn env s).events = failed.map failedGet ∧
        ((failed = [] ∧ e = Err.noConnPool) ∨
          ∃ init p x, failed = init ++ [(p, x)] ∧ e = Err.ext x)) ∧
    ((getTrackerConn env s).ret = Res.err Err.noConnPool ↔ s.client.trackerPools = []) := by
  obtain ⟨_, _, h⟩ := getTrackerConn_spec env s
  constructor
  · intro e he
    rcases h with ⟨conn, failed, p, rest, h1, _, _⟩ | ⟨failed, e2, h1, h2, h3, h4⟩
    · rw [h1] at he
      cases he
    · rw [h1] at he
      cases he
      exact ⟨failed, h2, h3, h4⟩
  · constructor
    · intro he
      rcases h with ⟨conn, failed, p, rest, h1, _, _⟩ | ⟨failed, e2, h1, h2, _, h4⟩
      · rw [h1] at he
        cases he
      · rw [h1] at he
        cases he
        rcases h4 with ⟨hnil, _⟩ | ⟨init, p, x, _, hx⟩
        · subst hnil
          simpa using h2
        · cases hx
    · intro hempty
      simp [getTrackerConn, getClient, hempty, getTrackerConnLoop]

/-- With every pool down and three tracker pools, the error of the third pool
is returned after three failed `get()` calls. -/
theorem tracker_failure_reports_last_error_witness :
    (getTrackerConn allDown.env state3).ret = Res.err (Err.ext "dial failed") ∧
    ∃ failed : List (PoolId × ExtErr),
      state3.client.trackerPools.map Prod.snd = failed.map Prod.fst ∧
      (getTrackerConn allDown.env state3).events = failed.map failedGet ∧
      ((failed = [] ∧ Err.ext "dial failed" = Err.noConnPool) ∨
        ∃ init p x, failed = init ++ [(p, x)] ∧ Err.ext "dial failed" = Err.ext x) :=
  ⟨rfl, (tracker_failure_reports_last_error allDown.env state3).1 (Err.ext "dial failed") rfl⟩

/-! ## C10: the lock of the storage-pool map -/

/-- C10: on every path of `getStorageConn` (endpoint found; endpoint absent and
`newConnPool` failed; endpoint absent and pool created) the events are one
fixed sequence: `Lock` once, first; `Unlock` once; the map read and the map
write between them; `get()`, when there is one, after `Unlock`.  Replayed
against a free lock the sequence keeps the lock discipline, and the lock is
free when the function returns. -/
theorem storage_lock_discipline {σ : Type} (env : Env σ) (info : storageInfo) (s : State σ) :
    ((∃ pool r, mapGet s.client.storagePools info.addr = some pool ∧
        (getStorageConn env info s).events =
          [Event.lock, Event.mapLookup info.addr (some pool), Event.unlock,
            Event.poolGet pool r]) ∨
      (∃ e, mapGet s.client.storagePools info.addr = none ∧
        (getStorageConn env info s).ret = Res.err e ∧
        (getStorageConn env info s).events =
          [Event.lock, Event.mapLookup info.addr none,
            Event.newConnPool info.addr s.client.config.maxConns (Res.err e), Event.unlock]) ∨
      (∃ pool r, mapGet s.client.storagePools info.addr = none ∧
        (getStorageConn env info s).events =
          [Event.lock, Event.mapLookup info.addr none,
            Event.newConnPool info.addr s.client.config.maxConns (Res.ok pool),
            Event.mapInsert info.addr pool, Event.unlock, Event.poolGet pool r])) ∧
    (getStorageConn env info s).events.count Event.lock = 1 ∧
    (getStorageConn env info s).events.count Event.unlock = 1 ∧
    lockDiscipline false (getStorageConn env info s).events = true ∧
    (getStorageConn env info s).state.lockHeld = false := by
  have hheld : (getStorageConn env info s).state.lockHeld = false := by
    cases h : mapGet s.client.storagePools info.addr with
    | some pool => rw [getStorageConn_found env info s pool h]
    | none =>
      cases hn : (env.newConnPool info.addr s.client.config.maxConns s.world).1 with
      | error e => rw [getStorageConn_createFailed env info s e h hn]
      | ok pool => rw [getStorageConn_created env info s pool h hn]
  rcases getStorageConn_paths env info s with ⟨pool, r, h0, h⟩ | ⟨e, h0, h1, h⟩ | ⟨pool, r, h0, h⟩
  · exact ⟨Or.inl ⟨pool, r, h0, h⟩, by simp [h], by simp [h], by rw [h]; rfl, hheld⟩
  · exact ⟨Or.inr (Or.inl ⟨e, h0, h1, h⟩), by simp [h], by simp [h], by rw [h]; rfl, hheld⟩
  · exact ⟨Or.inr (Or.inr ⟨pool, r, h0, h⟩), by simp [h], by simp [h], by rw [h]; rfl,
      hheld⟩

/-! ## C8: one storage pool per endpoint -/

/-- How many `newConnPool` calls for `addr` may still succeed: none once the
map has an entry for `addr`, one before. -/
theorem createBudget_cases (m : PoolMap) (addr : String) :
    (if (mapGet m addr).isSome then 0 else 1) ≤ 1 := by
  split <;> simp

theorem getStorageConn_created_step {σ : Type} (env : Env σ) (info : storageInfo) (s : State σ)
    (addr : String) :
    ((getStorageConn env info s).events.filter (Event.createdPool addr)).length +
        (if (mapGet (getStorageConn env info s).state.client.storagePools addr).isSome
          then 0 else 1) ≤
      (if (mapGet s.client.storagePools addr).isSome then 0 else 1) ∧
    (∀ pool, mapGet s.client.storagePools addr = some pool →
      mapGet (getStorageConn env info s).state.client.storagePools addr = some pool) := by
  cases h : mapGet s.client.storagePools info.addr with
  | some pool =>
    rw [getStorageConn_found env info s pool h]
    simp [Event.createdPool]
  | none =>
    cases hn : (env.newConnPool info.addr s.client.config.maxConns s.world).1 with
    | error e =>
      rw [getStorageConn_createFailed env info s e h hn]
      simp [Event.createdPool]
    | ok pool =>
      rw [getStorageConn_created env info s pool h hn]
      by_cases ha : info.addr = addr
      · subst ha
        simp [Event.createdPool, mapGet_mapSet_same, h]
      · have ha2 : addr ≠ info.addr := fun e => ha e.symm
        simp [Event.createdPool, mapGet_mapSet_other _ _ _ _ ha2, ha]

theorem getStorageConnSeq_created {σ : Type} (env : Env σ) (calls : List ((σ → σ) × storageInfo))
    (s : State σ) (addr : String) :
    ((getStorageConnSeq env calls s).events.filter (Event.createdPool addr)).length +
        (if (mapGet (getStorageConnSeq env calls s).state.client.storagePools addr).isSome
          then 0 else 1) ≤
      (if (mapGet s.client.storagePools addr).isSome then 0 else 1) ∧
    (∀ pool, mapGet s.client.storagePools addr = some pool →
      mapGet (getStorageConnSeq env calls s).state.client.storagePools addr = some pool) := by
  induction calls generalizing s with
  | nil => simp [getStorageConnSeq]
  | cons hd tl ih =>
    obtain ⟨f, info⟩ := hd
    have hrun : getStorageConnSeq env ((f, info) :: tl) s =
        ⟨(),
          (getStorageConn env info { s with world := f s.world }).events ++
            (getStorageConnSeq env tl
              (getStorageConn env info { s with world := f s.world }).state).events,
          (getStorageConnSeq env tl
              (getStorageConn env info { s with world := f s.world }).state).state⟩ := by
      simp [getStorageConnSeq, worldStep]
    obtain ⟨h1, h2⟩ := getStorageConn_created_step env info { s with world := f s.world } addr
    obtain ⟨h3, h4⟩ := ih (getStorageConn env info { s with world := f s.world }).state
    rw [hrun]
    constructor
    · simp only [List.filter_append, List.length_append]
      simp only at h1
      omega
    · intro pool hp
      exact h4 pool (h2 pool hp)

/-- C8: in every sequence of `getStorageConn` calls on one client, whatever the
collaborators do in between, `newConnPool` succeeds at most once for each
endpoint string, and never for an endpoint that already has an entry, whose
entry stays as it is.  A call for an endpoint with an entry makes no
`newConnPool` call, leaves the client unchanged and calls `get()` on the stored
pool.  A call for an absent endpoint for which `newConnPool` succeeds appends
the one entry `(addr, pool)` and changes nothing else.  When `newConnPool`
fails, the client is unchanged, the error is returned and no `get()` is called. -/
theorem storage_pool_created_once {σ : Type} (env : Env σ) (s : State σ) :
    (∀ calls addr,
      ((getStorageConnSeq env calls s).events.filter (Event.createdPool addr)).length ≤ 1) ∧
    (∀ calls addr pool, mapGet s.client.storagePools addr = some pool →
      mapGet (getStorageConnSeq env calls s).state.client.storagePools addr = some pool ∧
      (getStorageConnSeq env calls s).events.filter (Event.createdPool addr) = []) ∧
    (∀ info pool, mapGet s.client.storagePools info.addr = some pool →
      (getStorageConn env info s).state.client = s.client ∧
      (getStorageConn env info s).ret = Res.lift (env.poolGet pool s.world).1 ∧
      (getStorageConn env info s).events =
        [Event.lock, Event.mapLookup info.addr (some pool), Event.unlock,
          Event.poolGet pool (Res.lift (env.poolGet pool s.world).1)]) ∧
    (∀ info pool, mapGet s.client.storagePools info.addr = none →
      (env.newConnPool info.addr s.client.config.maxConns s.world).1 = Except.ok pool →
      (getStorageConn env info s).state.client =
        { s.client with storagePools := s.client.storagePools ++ [(info.addr, pool)] } ∧
      ((getStorageConn env info s).events.filter (Event.createdPool info.addr)).length = 1) ∧
    (∀ info e, mapGet s.client.storagePools info.addr = none →
      (env.newConnPool info.addr s.client.config.maxConns s.world).1 = Except.error e →
      (getStorageConn env info s).state.client = s.client ∧
      (getStorageConn env info s).ret = Res.err (Err.ext e) ∧
      ∀ ev ∈ (getStorageConn env info s).events, ev.isGet = false) := by
  refine ⟨?_, ?_, ?_, ?_, ?_⟩
  · intro calls addr
    have h := (getStorageConnSeq_created env calls s addr).1
    have h2 := createBudget_cases s.client.storagePools addr
    omega
  · intro calls addr pool hp
    obtain ⟨h1, h2⟩ := getStorageConnSeq_created env calls s addr
    refine ⟨h2 pool hp, ?_⟩
    simp only [hp, Option.isSome_some, if_true] at h1
    exact List.length_eq_zero.1 (by omega)
  · intro info pool h
    rw [getStorageConn_found env info s pool h]
    exact ⟨rfl, rfl, rfl⟩
  · intro info pool h hn
    rw [getStorageConn_created env info s pool h hn]
    simp [mapSet_absent _ _ _ h, Event.createdPool]
  · intro info e h hn
    rw [getStorageConn_createFailed env info s e h hn]
    simp [Event.isGet]

/-- Three calls for the same endpoint and one for another on a fresh client:
the pool of each endpoint is created once; on a cluster that refuses pools the
map stays empty. -/
theorem storage_pool_created_once_witness :
    ((getStorageConnSeq healthy.env
        [(id, info1), (id, info1), (id, { addr := "10.0.0.6:23000", storagePathIndex := 0 }),
          (id, info1)] state1).events.filter (Event.createdPool "10.0.0.5:23000")).length ≤ 1 ∧
    (mapGet (getStorageConn healthy.env info1 state1).state.client.storagePools info1.addr
        = some 2 ∧
      (getStorageConn healthy.env info1 (getStorageConn healthy.env info1 state1).state).state.client
        = (getStorageConn healthy.env info1 state1).state.client) ∧
    (mapGet state1.client.storagePools info1.addr = none ∧
      (healthy.env.newConnPool info1.addr state1.client.config.maxConns state1.world).1
        = Except.ok 2 ∧
      (getStorageConn healthy.env info1 state1).state.client =
        { state1.client with storagePools := state1.client.storagePools ++ [(info1.addr, 2)] }) ∧
    ((noPool.env.newConnPool info1.addr state1.client.config.maxConns state1.world).1
        = Except.error "bad address" ∧
      (getStorageConn noPool.env info1 state1).state.client = state1.client) :=
  ⟨(storage_pool_created_once healthy.env state1).1 _ _,
    ⟨rfl, ((storage_pool_created_once healthy.env
      (getStorageConn healthy.env info1 state1).state).2.2.1 info1 2 rfl).1⟩,
    ⟨rfl, rfl, ((storage_pool_created_once healthy.env state1).2.2.2.1 info1 2 rfl rfl).1⟩,
    ⟨rfl, ((storage_pool_created_once noPool.env state1).2.2.2.2 info1 "bad address" rfl rfl).1⟩⟩

/-! ## C9: Destory -/

theorem destoryPools_run {σ : Type} (env : Env σ) (pools : PoolMap) (s : State σ) :
    destoryPools env pools s =
      ⟨(), pools.map (fun x => Event.poolDestory x.2),
        { s with world := List.foldl (fun w x => env.poolDestory x.2 w) s.world pools }⟩ := by
  induction pools generalizing s with
  | nil => simp [destoryPools]
  | cons hd tl ih =>
    obtain ⟨addr, pool⟩ := hd
    simp [destoryPools, poolDestory, ih]

theorem Destory_ref_run {σ : Type} (env : Env σ) (s : State σ) :
    Destory env ClientPtr.ref s =
      ⟨(), s.client.trackerPools.map (fun x => Event.poolDestory x.2) ++
          s.client.storagePools.map (fun x => Event.poolDestory x.2),
        { s with
          world := List.foldl (fun w x => env.poolDestory x.2 w) s.world (s.client.trackerPools ++ s.client.storagePools) }⟩ := by
  simp [Destory, getClient, destoryPools_run]

theorem count_poolDestory (pools : PoolMap) (p : PoolId) :
    (pools.map (fun x => Event.poolDestory x.2)).count (Event.poolDestory p) =
      (pools.map Prod.snd).count p := by
  induction pools with
  | nil => simp
  | cons hd tl ih =>
    by_cases h : hd.2 = p <;> simp [List.count_cons, ih, h]

theorem foldl_ownDestory {ρ : Type} (destroy : ρ → ρ)
    (hidem : ∀ x, destroy (destroy x) = destroy x) (pools : PoolMap) (w : PoolId → ρ) :
    pools.foldl (fun w x => ownDestory destroy x.2 w) w =
      fun q => if q ∈ pools.map Prod.snd then destroy (w q) else w q := by
  induction pools generalizing w with
  | nil => simp
  | cons hd tl ih =>
    obtain ⟨addr, pool⟩ := hd
    simp only [List.foldl_cons, ih, List.map_cons, List.mem_cons]
    funext q
    by_cases h1 : q = pool
    · subst h1
      by_cases h2 : q ∈ tl.map Prod.snd <;> simp [ownDestory, h2, hidem]
    · by_cases h2 : q ∈ tl.map Prod.snd <;> simp [ownDestory, h1, h2]

/-- C9, as the code has it: `Destory` on a client calls `Destory` on the pool
of every entry of `trackerPools`, then of `storagePools`, once per entry and on
nothing else, and leaves the client struct as it was.  It does nothing on a nil
client, and nothing on a client both of whose maps are empty.  When every pool
has a state of its own and a pool's own `Destory` is idempotent, the state
after two calls in a row is the state after one. -/
theorem destory_every_pool_once {σ : Type} (env : Env σ) (s : State σ) :
    (Destory env ClientPtr.ref s).events =
      s.client.trackerPools.map (fun x => Event.poolDestory x.2) ++
        s.client.storagePools.map (fun x => Event.poolDestory x.2) ∧
    (∀ p, (Destory env ClientPtr.ref s).events.count (Event.poolDestory p) =
      (s.client.trackerPools.map Prod.snd).count p +
        (s.client.storagePools.map Prod.snd).count p) ∧
    (Destory env ClientPtr.ref s).state.client = s.client ∧
    Destory env ClientPtr.nil s = ⟨(), [], s⟩ ∧
    (s.client.trackerPools = [] → s.client.storagePools = [] →
      Destory env ClientPtr.ref s = ⟨(), [], s⟩) ∧
    (∀ (ρ : Type) (destroy : ρ → ρ) (env2 : Env (PoolId → ρ)) (s2 : State (PoolId → ρ))
      (c : ClientPtr),
      (∀ x, destroy (destroy x) = destroy x) → env2.poolDestory = ownDestory destroy →
      (Destory env2 c (Destory env2 c s2).state).state = (Destory env2 c s2).state) := by
  refine ⟨?_, ?_, ?_, rfl, ?_, ?_⟩
  · rw [Destory_ref_run]
  · intro p
    rw [Destory_ref_run]
    simp only [List.count_append, count_poolDestory]
  · rw [Destory_ref_run]
  · intro h1 h2
    rw [Destory_ref_run]
    simp [h1, h2]
  · intro ρ destroy env2 s2 c hidem hown
    cases c with
    | nil => rfl
    | ref =>
      rw [Destory_ref_run, Destory_ref_run]
      simp only [hown, foldl_ownDestory destroy hidem]
      congr 1
      funext q
      by_cases h : q ∈ (s2.client.trackerPools ++ s2.client.storagePools).map Prod.snd
      · simp only [if_pos h, hidem]
      · simp only [if_neg h]

/-- A client with tracker pool 1 and storage pool 2: both are destroyed by the
first call, and a second call changes nothing. -/
theorem destory_every_pool_once_witness :
    (Destory healthy.env ClientPtr.ref (getStorageConn healthy.env info1 state1).state).events =
      [Event.poolDestory 1, Event.poolDestory 2] ∧
    ((∀ x : Bool, (fun _ => true) ((fun _ => true) x) = (fun _ : Bool => true) x) ∧
      healthy.env.poolDestory = ownDestory (fun _ => true) ∧
      (Destory healthy.env ClientPtr.ref (Destory healthy.env ClientPtr.ref
          (getStorageConn healthy.env info1 state1).state).state).state =
        (Destory healthy.env ClientPtr.ref (getStorageConn healthy.env info1 state1).state).state) ∧
    (({ state1 with client := { client1 with trackerPools := [] } } :
        State SimWorld).client.trackerPools = [] ∧
      ({ state1 with client := { client1 with trackerPools := [] } } :
        State SimWorld).client.storagePools = [] ∧
      Destory healthy.env ClientPtr.ref
          { state1 with client := { client1 with trackerPools := [] } } =
        ⟨(), [], { state1 with client := { client1 with trackerPools := [] } }⟩) :=
  ⟨(destory_every_pool_once healthy.env (getStorageConn healthy.env info1 state1).state).1,
    ⟨fun _ => rfl, rfl,
      (destory_every_pool_once healthy.env state1).2.2.2.2.2 Bool (fun _ => true) healthy.env
        (getStorageConn healthy.env info1 state1).state ClientPtr.ref (fun _ => rfl) rfl⟩,
    ⟨rfl, rfl, (destory_every_pool_once healthy.env
      { state1 with client := { client1 with trackerPools := [] } }).2.2.2.2.1 rfl rfl⟩⟩

/-- C9 as stated fails: on a client whose `storagePools` is empty and whose
`trackerPools` holds pool 1, `Destory` is not a no-op: it calls `Destory` on
pool 1, which is destroyed afterwards and was not before. -/
theorem destory_not_noop_without_storage_pools :
    state1.client.storagePools = [] ∧
    (Destory healthy.env ClientPtr.ref state1).events = [Event.poolDestory 1] ∧
    (Destory healthy.env ClientPtr.ref state1).events ≠ [] ∧
    state1.world 1 = false ∧
    (Destory healthy.env ClientPtr.ref state1).state.world 1 = true := by
  decide

/-! ## C2: the tracker query comes first -/

theorem queryStorageInfoWithTracker_run {σ : Type} (env : Env σ) (cmd : Int) (g r : String)
    (s : State σ) :
    queryStorageInfoWithTracker env cmd g r s =
      ⟨(match (doTracker env env.trackerOps
            { cmd := cmd, groupName := g, remoteFilename := r, ipAddr := "", port := 0,
              storePathIndex := 0 } s).ret with
          | (some err, _) => Res.err err
          | (none, task) => Res.ok { addr := task.ipAddr ++ ":" ++ toString task.port,
                                     storagePathIndex := task.storePathIndex }),
        (doTracker env env.trackerOps
            { cmd := cmd, groupName := g, remoteFilename := r, ipAddr := "", port := 0,
              storePathIndex := 0 } s).events,
        (doTracker env env.trackerOps
            { cmd := cmd, groupName := g, remoteFilename := r, ipAddr := "", port := 0,
              storePathIndex := 0 } s).state⟩ := by
  simp only [queryStorageInfoWithTracker, bind_run]
  rcases h : (doTracker env env.trackerOps
            { cmd := cmd, groupName := g, remoteFilename := r, ipAddr := "", port := 0,
              storePathIndex := 0 } s).ret with ⟨e, t⟩
  cases e <;> simp

theorem storageQuiet_append (l1 l2 : List Event)
    (h1 : ∀ ev ∈ l1, ev.isStorageAccess = false) (h2 : ∀ ev ∈ l2, ev.isStorageAccess = false) :
    ∀ ev ∈ l1 ++ l2, ev.isStorageAccess = false := by
  intro ev hev
  rcases List.mem_append.1 hev with h | h
  · exact h1 ev h
  · exact h2 ev h

theorem doTracker_spec {σ τ : Type} (env : Env σ) (ops : TaskOps σ τ) (task : τ) (s : State σ) :
    (∀ ev ∈ (doTracker env ops task s).events, ev.isStorageAccess = false) ∧
    ((doTracker env ops task s).ret.1 = none →
      ∃ (failed : List (PoolId × ExtErr)) (p : PoolId) (c : Conn),
        (doTracker env ops task s).events =
          failed.map failedGet ++
            [Event.poolGet p (Res.ok c), Event.sendReq c none, Event.recvRes c none,
              Event.close c]) := by
  obtain ⟨_, _, h⟩ := getTrackerConn_spec env s
  rcases h with ⟨conn, failed, p, rest, h1, _, h3⟩ | ⟨failed, e, h1, _, h3, _⟩
  · rw [doTracker_ok env ops task s conn h1, h3]
    have hq : ∀ ev ∈ failed.map failedGet, ev.isStorageAccess = false :=
      fun ev h => (failedGet_quiet failed ev h).2.2
    cases hs : (ops.SendReq task conn (getTrackerConn env s).state.world).1 with
    | some e =>
      rw [runTask_sendErr ops task conn _ e hs]
      constructor
      · exact storageQuiet_append _ _
          (storageQuiet_append _ _ hq (by simp [Event.isStorageAccess]))
          (by simp [Event.isStorageAccess])
      · intro hn
        simp at hn
    | none =>
      rw [runTask_sendOk ops task conn _ hs]
      constructor
      · exact storageQuiet_append _ _
          (storageQuiet_append _ _ hq (by simp [Event.isStorageAccess]))
          (by simp [Event.isStorageAccess])
      · intro hn
        simp only at hn
        refine ⟨failed, p, conn, ?_⟩
        simp [hn]
  · rw [doTracker_err env ops task s e h1, h3]
    constructor
    · intro ev hev
      exact (failedGet_quiet failed ev hev).2.2
    · intro hn
      simp at hn

theorem queryStorageInfoWithTracker_spec {σ : Type} (env : Env σ) (cmd : Int) (g r : String)
    (s : State σ) :
    (∀ ev ∈ (queryStorageInfoWithTracker env cmd g r s).events, ev.isStorageAccess = false) ∧
    (∀ info, (queryStorageInfoWithTracker env cmd g r s).ret = Res.ok info →
      ∃ (failed : List (PoolId × ExtErr)) (p : PoolId) (c : Conn),
        (queryStorageInfoWithTracker env cmd g r s).events =
          failed.map failedGet ++
            [Event.poolGet p (Res.ok c), Event.sendReq c none, Event.recvRes c none,
              Event.close c]) := by
  obtain ⟨h1, h2⟩ := doTracker_spec env env.trackerOps
    { cmd := cmd, groupName := g, remoteFilename := r, ipAddr := "", port := 0,
      storePathIndex := 0 } s
  rw [queryStorageInfoWithTracker_run]
  refine ⟨h1, ?_⟩
  intro info hret
  apply h2
  simp only at hret
  rcases hd : (doTracker env env.trackerOps
            { cmd := cmd, groupName := g, remoteFilename := r, ipAddr := "", port := 0,
              storePathIndex := 0 } s).ret with ⟨e, t⟩
  rw [hd] at hret
  cases e with
  | none => rfl
  | some e => simp at hret

theorem doStorage_events_head {σ τ : Type} (env : Env σ) (ops : TaskOps σ τ) (task : τ)
    (info : storageInfo) (s : State σ) :
    ∃ rest, (doStorage env ops task info s).events = Event.lock :: rest := by
  have hg : ∃ rest, (getStorageConn env info s).events = Event.lock :: rest := by
    rcases getStorageConn_paths env info s with ⟨_, _, _, h⟩ | ⟨_, _, _, h⟩ | ⟨_, _, _, h⟩ <;>
      exact ⟨_, h⟩
  obtain ⟨rest, hrest⟩ := hg
  cases h : (getStorageConn env info s).ret with
  | ok conn =>
    rw [doStorage_ok env ops task info s conn h, hrest]
    exact ⟨_, rfl⟩
  | err e =>
    rw [doStorage_err env ops task info s e h, hrest]
    exact ⟨_, rfl⟩

/-- The events of an operation, cut at the tracker query: `before` (file
handling), the query `q`, the storage task `d` (absent unless the query
succeeded), and `after` (file handling). -/
theorem trackerFirst_of_parts (before q d after : List Event)
    (hb : ∀ ev ∈ before, ev.isStorageAccess = false)
    (hq : ∀ ev ∈ q, ev.isStorageAccess = false)
    (ha : ∀ ev ∈ after, ev.isStorageAccess = false)
    (hd : d = [] ∨ ((∃ rest, d = Event.lock :: rest) ∧
      ∃ (failed : List (PoolId × ExtErr)) (p : PoolId) (c : Conn),
        q = failed.map failedGet ++
          [Event.poolGet p (Res.ok c), Event.sendReq c none, Event.recvRes c none,
            Event.close c]))
    (hmem : Event.lock ∈ before ++ (q ++ d) ++ after) :
    ∃ (pre : List Event) (p : PoolId) (c : Conn) (post : List Event),
      before ++ (q ++ d) ++ after =
        pre ++ [Event.poolGet p (Res.ok c), Event.sendReq c none, Event.recvRes c none,
          Event.close c] ++ Event.lock :: post ∧
      ∀ ev ∈ pre, ev.isStorageAccess = false := by
  rcases hd with hd | ⟨⟨rest, hrest⟩, failed, p, c, hshape⟩
  · subst hd
    exfalso
    simp only [List.mem_append, List.append_nil] at hmem
    rcases hmem with (h | h) | h
    · simpa [Event.isStorageAccess] using hb _ h
    · simpa [Event.isStorageAccess] using hq _ h
    · simpa [Event.isStorageAccess] using ha _ h
  · refine ⟨before ++ failed.map failedGet, p, c, rest ++ after, ?_, ?_⟩
    · rw [hrest, hshape]
      simp
    · intro ev hev
      rcases List.mem_append.1 hev with h | h
      · exact hb ev h
      · exact (failedGet_quiet failed ev h).2.2

/-- The parts of an operation that runs the tracker query at `s` and then,
if the query succeeded, `doStorage`, whose events are `d`. -/
theorem parts_of_query {σ : Type} (env : Env σ) (cmd : Int) (g r : String) (s : State σ)
    (d : Res storageInfo → List Event) (hd : ∀ e, d (Res.err e) = [])
    (hd2 : ∀ info, ∃ rest, d (Res.ok info) = Event.lock :: rest) :
    d (queryStorageInfoWithTracker env cmd g r s).ret = [] ∨
      ((∃ rest, d (queryStorageInfoWithTracker env cmd g r s).ret = Event.lock :: rest) ∧
      ∃ (failed : List (PoolId × ExtErr)) (p : PoolId) (c : Conn),
        (queryStorageInfoWithTracker env cmd g r s).events = failed.map failedGet ++
          [Event.poolGet p (Res.ok c), Event.sendReq c none, Event.recvRes c none,
            Event.close c]) := by
  cases h : (queryStorageInfoWithTracker env cmd g r s).ret with
  | err e => exact Or.inl (hd e)
  | ok info =>
    exact Or.inr ⟨hd2 info, (queryStorageInfoWithTracker_spec env cmd g r s).2 info h⟩

theorem DownloadToFile_events {σ : Type} (env : Env σ) (fileId g r : String) (localFilename : String) (offset downloadBytes : Int)
    (s : State σ) (h : env.splitFileId fileId = Except.ok (g, r)) :
    (DownloadToFile env fileId localFilename offset downloadBytes s).events =
      (queryStorageInfoWithTracker env env.TRACKER_PROTO_CMD_SERVICE_QUERY_FETCH_ONE g r s).events ++
        (match (queryStorageInfoWithTracker env env.TRACKER_PROTO_CMD_SERVICE_QUERY_FETCH_ONE g r s).ret with
          | Res.err _ => []
          | Res.ok info =>
            (doStorage env env.downloadOps
              { groupName := g, remoteFilename := r, offset := offset, downloadBytes := downloadBytes, localFilename := localFilename, buffer := none }
              info (queryStorageInfoWithTracker env env.TRACKER_PROTO_CMD_SERVICE_QUERY_FETCH_ONE g r s).state).events) := by
  simp only [DownloadToFile, h, Res.lift, bind_run]
  cases hq : (queryStorageInfoWithTracker env env.TRACKER_PROTO_CMD_SERVICE_QUERY_FETCH_ONE g r s).ret with
  | err e => simp
  | ok info =>
    rcases hd : (doStorage env env.downloadOps
              { groupName := g, remoteFilename := r, offset := offset, downloadBytes := downloadBytes, localFilename := localFilename, buffer := none }
              info (queryStorageInfoWithTracker env env.TRACKER_PROTO_CMD_SERVICE_QUERY_FETCH_ONE g r s).state).ret with ⟨e, t⟩
    cases e <;> simp [hd]

theorem DownloadToBuffer_events {σ : Type} (env : Env σ) (fileId g r : String) (offset downloadBytes : Int)
    (s : State σ) (h : env.splitFileId fileId = Except.ok (g, r)) :
    (DownloadToBuffer env fileId offset downloadBytes s).events =
      (queryStorageInfoWithTracker env env.TRACKER_PROTO_CMD_SERVICE_QUERY_FETCH_ONE g r s).events ++
        (match (queryStorageInfoWithTracker env env.TRACKER_PROTO_CMD_SERVICE_QUERY_FETCH_ONE g r s).ret with
          | Res.err _ => []
          | Res.ok info =>
            (doStorage env env.downloadOps
              { groupName := g, remoteFilename := r, offset := offset, downloadBytes := downloadBytes, localFilename := "", buffer := none }
              info (queryStorageInfoWithTracker env env.TRACKER_PROTO_CMD_SERVICE_QUERY_FETCH_ONE g r s).state).events) := by
  simp only [DownloadToBuffer, h, Res.lift, bind_run]
  cases hq : (queryStorageInfoWithTracker env env.TRACKER_PROTO_CMD_SERVICE_QUERY_FETCH_ONE g r s).ret with
  | err e => simp
  | ok info =>
    rcases hd : (doStorage env env.downloadOps
              { groupName := g, remoteFilename := r, offset := offset, downloadBytes := downloadBytes, localFilename := "", buffer := none }
              info (queryStorageInfoWithTracker env env.TRACKER_PROTO_CMD_SERVICE_QUERY_FETCH_ONE g r s).state).ret with ⟨e, t⟩
    cases e <;> simp [hd]

theorem DownloadToAllocatedBuffer_events {σ : Type} (env : Env σ) (fileId g r : String) (buffer : Option Bytes) (offset downloadBytes : Int)
    (s : State σ) (h : env.splitFileId fileId = Except.ok (g, r)) :
    (DownloadToAllocatedBuffer env fileId buffer offset downloadBytes s).events =
      (queryStorageInfoWithTracker env env.TRACKER_PROTO_CMD_SERVICE_QUERY_FETCH_ONE g r s).events ++
        (match (queryStorageInfoWithTracker env env.TRACKER_PROTO_CMD_SERVICE_QUERY_FETCH_ONE g r s).ret with
          | Res.err _ => []
          | Res.ok info =>
            (doStorage env env.downloadOps
              { groupName := g, remoteFilename := r, offset := offset, downloadBytes := downloadBytes, localFilename := "", buffer := buffer }
              info (queryStorageInfoWithTracker env env.TRACKER_PROTO_CMD_SERVICE_QUERY_FETCH_ONE g r s).state).events) := by
  simp only [DownloadToAllocatedBuffer, h, Res.lift, bind_run]
  cases hq : (queryStorageInfoWithTracker env env.TRACKER_PROTO_CMD_SERVICE_QUERY_FETCH_ONE g r s).ret with
  | err e => simp
  | ok info =>
    rcases hd : (doStorage env env.downloadOps
              { groupName := g, remoteFilename := r, offset := offset, downloadBytes := downloadBytes, localFilename := "", buffer := buffer }
              info (queryStorageInfoWithTracker env env.TRACKER_PROTO_CMD_SERVICE_QUERY_FETCH_ONE g r s).state).ret with ⟨e, t⟩
    cases e <;> simp [hd]

theorem DeleteFile_events {σ : Type} (env : Env σ) (fileId g r : String) 
    (s : State σ) (h : env.splitFileId fileId = Except.ok (g, r)) :
    (DeleteFile env fileId s).events =
      (queryStorageInfoWithTracker env env.TRACKER_PROTO_CMD_SERVICE_QUERY_FETCH_ONE g r s).events ++
        (match (queryStorageInfoWithTracker env env.TRACKER_PROTO_CMD_SERVICE_QUERY_FETCH_ONE g r s).ret with
          | Res.err _ => []
          | Res.ok info =>
            (doStorage env env.deleteOps
              { groupName := g, remoteFilename := r }
              info (queryStorageInfoWithTracker env env.TRACKER_PROTO_CMD_SERVICE_QUERY_FETCH_ONE g r s).state).events) := by
  simp only [DeleteFile, h, Res.lift, bind_run]
  cases hq : (queryStorageInfoWithTracker env env.TRACKER_PROTO_CMD_SERVICE_QUERY_FETCH_ONE g r s).ret with
  | err e => simp
  | ok info =>
    rcases hd : (doStorage env env.deleteOps
              { groupName := g, remoteFilename := r }
              info (queryStorageInfoWithTracker env env.TRACKER_PROTO_CMD_SERVICE_QUERY_FETCH_ONE g r s).state).ret with ⟨e, t⟩
    cases e <;> simp [hd]

theorem uploadBody_events {σ : Type} (env : Env σ) (fileInfo : Option FileInfo) (s : State σ) :
    (uploadBody env fileInfo none s).events =
      (queryStorageInfoWithTracker env
          env.TRACKER_PROTO_CMD_SERVICE_QUERY_STORE_WITHOUT_GROUP_ONE "" "" s).events ++
        (match (queryStorageInfoWithTracker env
            env.TRACKER_PROTO_CMD_SERVICE_QUERY_STORE_WITHOUT_GROUP_ONE "" "" s).ret with
          | Res.err _ => []
          | Res.ok info =>
            (doStorage env env.uploadOps
              { fileInfo := fileInfo, storagePathIndex := info.storagePathIndex, fileId := "" }
              info (queryStorageInfoWithTracker env
                env.TRACKER_PROTO_CMD_SERVICE_QUERY_STORE_WITHOUT_GROUP_ONE "" "" s).state).events) := by
  simp only [uploadBody, bind_run]
  cases hq : (queryStorageInfoWithTracker env
      env.TRACKER_PROTO_CMD_SERVICE_QUERY_STORE_WITHOUT_GROUP_ONE "" "" s).ret with
  | err e => simp
  | ok info =>
    simp only [List.append_cancel_left_eq]
    rcases hd : (doStorage env env.uploadOps
              { fileInfo := fileInfo, storagePathIndex := info.storagePathIndex, fileId := "" }
              info (queryStorageInfoWithTracker env
                env.TRACKER_PROTO_CMD_SERVICE_QUERY_STORE_WITHOUT_GROUP_ONE "" "" s).state).ret
      with ⟨e, t⟩
    cases e <;> simp [hd]

theorem uploadBody_failed {σ : Type} (env : Env σ) (fileInfo : Option FileInfo) (e : Err)
    (s : State σ) : uploadBody env fileInfo (some e) s = ⟨("", some e), [], s⟩ := by
  simp [uploadBody]

theorem UploadByFilename_run {σ : Type} (env : Env σ) (fileName : String) (s : State σ) :
    UploadByFilename env fileName s =
      ⟨(uploadBody env (env.newFileInfo fileName none "" s.world).1.1
          (liftErr (env.newFileInfo fileName none "" s.world).1.2)
          { s with world := (env.newFileInfo fileName none "" s.world).2 }).ret,
        Event.newFileInfo fileName none "" (env.newFileInfo fileName none "" s.world).1.1
            (liftErr (env.newFileInfo fileName none "" s.world).1.2) ::
          ((uploadBody env (env.newFileInfo fileName none "" s.world).1.1
            (liftErr (env.newFileInfo fileName none "" s.world).1.2)
            { s with world := (env.newFileInfo fileName none "" s.world).2 }).events ++
          [Event.fileInfoClose (env.newFileInfo fileName none "" s.world).1.1]),
        { (uploadBody env (env.newFileInfo fileName none "" s.world).1.1
            (liftErr (env.newFileInfo fileName none "" s.world).1.2)
            { s with world := (env.newFileInfo fileName none "" s.world).2 }).state with
          world := env.fileInfoClose (env.newFileInfo fileName none "" s.world).1.1
            (uploadBody env (env.newFileInfo fileName none "" s.world).1.1
              (liftErr (env.newFileInfo fileName none "" s.world).1.2)
              { s with world := (env.newFileInfo fileName none "" s.world).2 }).state.world }⟩ := by
  simp [UploadByFilename, newFileInfo, fileInfoClose]

theorem UploadByBuffer_run {σ : Type} (env : Env σ) (buffer : Option Bytes) (ext : String)
    (s : State σ) :
    UploadByBuffer env buffer ext s =
      ⟨(uploadBody env (env.newFileInfo "" buffer ext s.world).1.1
          (liftErr (env.newFileInfo "" buffer ext s.world).1.2)
          { s with world := (env.newFileInfo "" buffer ext s.world).2 }).ret,
        Event.newFileInfo "" buffer ext (env.newFileInfo "" buffer ext s.world).1.1
            (liftErr (env.newFileInfo "" buffer ext s.world).1.2) ::
          ((uploadBody env (env.newFileInfo "" buffer ext s.world).1.1
            (liftErr (env.newFileInfo "" buffer ext s.world).1.2)
            { s with world := (env.newFileInfo "" buffer ext s.world).2 }).events ++
          [Event.fileInfoClose (env.newFileInfo "" buffer ext s.world).1.1]),
        { (uploadBody env (env.newFileInfo "" buffer ext s.world).1.1
            (liftErr (env.newFileInfo "" buffer ext s.world).1.2)
            { s with world := (env.newFileInfo "" buffer ext s.world).2 }).state with
          world := env.fileInfoClose (env.newFileInfo "" buffer ext s.world).1.1
            (uploadBody env (env.newFileInfo "" buffer ext s.world).1.1
              (liftErr (env.newFileInfo "" buffer ext s.world).1.2)
              { s with world := (env.newFileInfo "" buffer ext s.world).2 }).state.world }⟩ := by
  simp [UploadByBuffer, newFileInfo, fileInfoClose]

theorem uploadBody_parts {σ : Type} (env : Env σ) (fileInfo : Option FileInfo) (err : Option Err)
    (s : State σ) :
    ∃ q d : List Event, (uploadBody env fileInfo err s).events = q ++ d ∧
      (∀ ev ∈ q, ev.isStorageAccess = false) ∧
      (d = [] ∨ ((∃ rest, d = Event.lock :: rest) ∧
        ∃ (failed : List (PoolId × ExtErr)) (p : PoolId) (c : Conn),
          q = failed.map failedGet ++
            [Event.poolGet p (Res.ok c), Event.sendReq c none, Event.recvRes c none,
              Event.close c])) := by
  cases err with
  | some e =>
    exact ⟨[], [], by rw [uploadBody_failed]; rfl, by simp, Or.inl rfl⟩
  | none =>
    refine ⟨_, _, uploadBody_events env fileInfo s,
      (queryStorageInfoWithTracker_spec env _ "" "" s).1, ?_⟩
    exact parts_of_query env _ "" "" s
      (fun q => match q with
        | Res.err _ => []
        | Res.ok info =>
          (doStorage env env.uploadOps
            { fileInfo := fileInfo, storagePathIndex := info.storagePathIndex, fileId := "" }
            info (queryStorageInfoWithTracker env
              env.TRACKER_PROTO_CMD_SERVICE_QUERY_STORE_WITHOUT_GROUP_ONE "" "" s).state).events)
      (fun _ => rfl) (fun info => doStorage_events_head env _ _ info _)

/-- Every public operation: its events cut at the tracker query. -/
theorem Call_parts {σ : Type} (env : Env σ) (call : Call) (s : State σ) :
    ∃ before q d after : List Event,
      (call.run env s).events = before ++ (q ++ d) ++ after ∧
      (∀ ev ∈ before, ev.isStorageAccess = false) ∧
      (∀ ev ∈ q, ev.isStorageAccess = false) ∧
      (∀ ev ∈ after, ev.isStorageAccess = false) ∧
      (d = [] ∨ ((∃ rest, d = Event.lock :: rest) ∧
        ∃ (failed : List (PoolId × ExtErr)) (p : PoolId) (c : Conn),
          q = failed.map failedGet ++
            [Event.poolGet p (Res.ok c), Event.sendReq c none, Event.recvRes c none,
              Event.close c])) := by
  have hidle : ∀ evs : List Event, evs = [] →
      ∃ before q d after : List Event,
        evs = before ++ (q ++ d) ++ after ∧
        (∀ ev ∈ before, ev.isStorageAccess = false) ∧
        (∀ ev ∈ q, ev.isStorageAccess = false) ∧
        (∀ ev ∈ after, ev.isStorageAccess = false) ∧
        (d = [] ∨ ((∃ rest, d = Event.lock :: rest) ∧
          ∃ (failed : List (PoolId × ExtErr)) (p : PoolId) (c : Conn),
            q = failed.map failedGet ++
              [Event.poolGet p (Res.ok c), Event.sendReq c none, Event.recvRes c none,
                Event.close c])) := by
    intro evs h
    exact ⟨[], [], [], [], by simp [h], by simp, by simp, by simp, Or.inl rfl⟩
  cases call with
  | UploadByFilename fileName =>
    obtain ⟨q, d, h1, h2, h3⟩ := uploadBody_parts env
      (env.newFileInfo fileName none "" s.world).1.1
      (liftErr (env.newFileInfo fileName none "" s.world).1.2)
      { s with world := (env.newFileInfo fileName none "" s.world).2 }
    refine ⟨[Event.newFileInfo fileName none "" (env.newFileInfo fileName none "" s.world).1.1
        (liftErr (env.newFileInfo fileName none "" s.world).1.2)], q, d,
      [Event.fileInfoClose (env.newFileInfo fileName none "" s.world).1.1], ?_,
      by simp [Event.isStorageAccess], h2, by simp [Event.isStorageAccess], h3⟩
    simp only [Call.run, bind_run, pure_run, UploadByFilename_run, h1]
    simp
  | UploadByBuffer buffer ext =>
    obtain ⟨q, d, h1, h2, h3⟩ := uploadBody_parts env
      (env.newFileInfo "" buffer ext s.world).1.1
      (liftErr (env.newFileInfo "" buffer ext s.world).1.2)
      { s with world := (env.newFileInfo "" buffer ext s.world).2 }
    refine ⟨[Event.newFileInfo "" buffer ext (env.newFileInfo "" buffer ext s.world).1.1
        (liftErr (env.newFileInfo "" buffer ext s.world).1.2)], q, d,
      [Event.fileInfoClose (env.newFileInfo "" buffer ext s.world).1.1], ?_,
      by simp [Event.isStorageAccess], h2, by simp [Event.isStorageAccess], h3⟩
    simp only [Call.run, bind_run, pure_run, UploadByBuffer_run, h1]
    simp
  | DownloadToFile fileId localFilename offset downloadBytes =>
    cases h : env.splitFileId fileId with
    | error e =>
      exact hidle _ (by simp [Call.run, DownloadToFile, h, Res.lift])
    | ok gr =>
      obtain ⟨g, r⟩ := gr
      refine ⟨[], _, _, [], ?_, by simp, (queryStorageInfoWithTracker_spec env env.TRACKER_PROTO_CMD_SERVICE_QUERY_FETCH_ONE g r s).1,
        by simp, parts_of_query env env.TRACKER_PROTO_CMD_SERVICE_QUERY_FETCH_ONE g r s
          (fun q => match q with
            | Res.err _ => []
            | Res.ok info => (doStorage env env.downloadOps
                { groupName := g, remoteFilename := r, offset := offset,
                  downloadBytes := downloadBytes, localFilename := localFilename,
                  buffer := none } info
                (queryStorageInfoWithTracker env env.TRACKER_PROTO_CMD_SERVICE_QUERY_FETCH_ONE
                  g r s).state).events)
          (fun _ => rfl) (fun info => doStorage_events_head env _ _ info _)⟩
      simp only [Call.run, List.nil_append, List.append_nil]
      exact DownloadToFile_events env fileId g r localFilename offset downloadBytes s h
  | DownloadToBuffer fileId offset downloadBytes =>
    cases h : env.splitFileId fileId with
    | error e =>
      exact hidle _ (by simp [Call.run, DownloadToBuffer, h, Res.lift])
    | ok gr =>
      obtain ⟨g, r⟩ := gr
      refine ⟨[], _, _, [], ?_, by simp, (queryStorageInfoWithTracker_spec env env.TRACKER_PROTO_CMD_SERVICE_QUERY_FETCH_ONE g r s).1,
        by simp, parts_of_query env env.TRACKER_PROTO_CMD_SERVICE_QUERY_FETCH_ONE g r s
          (fun q => match q with
            | Res.err _ => []
            | Res.ok info => (doStorage env env.downloadOps
                { groupName := g, remoteFilename := r, offset := offset,
                  downloadBytes := downloadBytes, localFilename := "",
                  buffer := none } info
                (queryStorageInfoWithTracker env env.TRACKER_PROTO_CMD_SERVICE_QUERY_FETCH_ONE
                  g r s).state).events)
          (fun _ => rfl) (fun info => doStorage_events_head env _ _ info _)⟩
      simp only [Call.run, bind_run, pure_run, List.nil_append, List.append_nil]
      exact DownloadToBuffer_events env fileId g r offset downloadBytes s h
  | DownloadToAllocatedBuffer fileId buffer offset downloadBytes =>
    cases h : env.splitFileId fileId with
    | error e =>
      exact hidle _ (by simp [Call.run, DownloadToAllocatedBuffer, h, Res.lift])
    | ok gr =>
      obtain ⟨g, r⟩ := gr
      refine ⟨[], _, _, [], ?_, by simp, (queryStorageInfoWithTracker_spec env env.TRACKER_PROTO_CMD_SERVICE_QUERY_FETCH_ONE g r s).1,
        by simp, parts_of_query env env.TRACKER_PROTO_CMD_SERVICE_QUERY_FETCH_ONE g r s
          (fun q => match q with
            | Res.err _ => []
            | Res.ok info => (doStorage env env.downloadOps
                { groupName := g, remoteFilename := r, offset := offset,
                  downloadBytes := downloadBytes, localFilename := "",
                  buffer := buffer } info
                (queryStorageInfoWithTracker env env.TRACKER_PROTO_CMD_SERVICE_QUERY_FETCH_ONE
                  g r s).state).events)
          (fun _ => rfl) (fun info => doStorage_events_head env _ _ info _)⟩
      simp only [Call.run, List.nil_append, List.append_nil]
      exact DownloadToAllocatedBuffer_events env fileId g r buffer offset downloadBytes s h
  | DeleteFile fileId =>
    cases h : env.splitFileId fileId with
    | error e =>
      exact hidle _ (by simp [Call.run, DeleteFile, h, Res.lift])
    | ok gr =>
      obtain ⟨g, r⟩ := gr
      refine ⟨[], _, _, [], ?_, by simp, (queryStorageInfoWithTracker_spec env env.TRACKER_PROTO_CMD_SERVICE_QUERY_FETCH_ONE g r s).1,
        by simp, parts_of_query env env.TRACKER_PROTO_CMD_SERVICE_QUERY_FETCH_ONE g r s
          (fun q => match q with
            | Res.err _ => []
            | Res.ok info => (doStorage env env.deleteOps
                { groupName := g, remoteFilename := r } info
                (queryStorageInfoWithTracker env env.TRACKER_PROTO_CMD_SERVICE_QUERY_FETCH_ONE
                  g r s).state).events)
          (fun _ => rfl) (fun info => doStorage_events_head env _ _ info _)⟩
      simp only [Call.run, List.nil_append, List.append_nil]
      exact DeleteFile_events env fileId g r s h

/-- C2: in every public operation, if a storage connection is requested at all
(`getStorageConn` is entered: the event `lock`), the events before it end with
the finished tracker task: the successful `get()` of the tracker connection
`c`, `SendReq` and `RecvRes` on `c`, both without error, and `Close` on `c`;
and nothing before touches the lock, the storage-pool map or `newConnPool`.
When the tracker query returns an error, the operation returns that error and
its events are those of the query alone (for the uploads: between the
`newFileInfo` call and the deferred `fileInfo.Close()`), none of which belongs
to `getStorageConn`; so no storage connection is requested and no storage task
runs. -/
theorem tracker_query_completes_first {σ : Type} (env : Env σ) (s : State σ) :
    (∀ call : Call, Event.lock ∈ (call.run env s).events →
      ∃ (pre : List Event) (p : PoolId) (c : Conn) (post : List Event),
        (call.run env s).events =
          pre ++ [Event.poolGet p (Res.ok c), Event.sendReq c none, Event.recvRes c none,
            Event.close c] ++ Event.lock :: post ∧
        ∀ ev ∈ pre, ev.isStorageAccess = false) ∧
    (∀ fileId groupName remoteFilename e,
      env.splitFileId fileId = Except.ok (groupName, remoteFilename) →
      (queryStorageInfoWithTracker env env.TRACKER_PROTO_CMD_SERVICE_QUERY_FETCH_ONE
        groupName remoteFilename s).ret = Res.err e →
      (∀ localFilename offset downloadBytes,
        DownloadToFile env fileId localFilename offset downloadBytes s =
          ⟨some e,
            (queryStorageInfoWithTracker env env.TRACKER_PROTO_CMD_SERVICE_QUERY_FETCH_ONE
              groupName remoteFilename s).events,
            (queryStorageInfoWithTracker env env.TRACKER_PROTO_CMD_SERVICE_QUERY_FETCH_ONE
              groupName remoteFilename s).state⟩) ∧
      (∀ offset downloadBytes,
        DownloadToBuffer env fileId offset downloadBytes s =
          ⟨(none, some e),
            (queryStorageInfoWithTracker env env.TRACKER_PROTO_CMD_SERVICE_QUERY_FETCH_ONE
              groupName remoteFilename s).events,
            (queryStorageInfoWithTracker env env.TRACKER_PROTO_CMD_SERVICE_QUERY_FETCH_ONE
              groupName remoteFilename s).state⟩) ∧
      (∀ buffer offset downloadBytes,
        DownloadToAllocatedBuffer env fileId buffer offset downloadBytes s =
          ⟨some e,
            (queryStorageInfoWithTracker env env.TRACKER_PROTO_CMD_SERVICE_QUERY_FETCH_ONE
              groupName remoteFilename s).events,
            (queryStorageInfoWithTracker env env.TRACKER_PROTO_CMD_SERVICE_QUERY_FETCH_ONE
              groupName remoteFilename s).state⟩) ∧
      DeleteFile env fileId s =
        ⟨some e,
          (queryStorageInfoWithTracker env env.TRACKER_PROTO_CMD_SERVICE_QUERY_FETCH_ONE
            groupName remoteFilename s).events,
          (queryStorageInfoWithTracker env env.TRACKER_PROTO_CMD_SERVICE_QUERY_FETCH_ONE
            groupName remoteFilename s).state⟩) ∧
    (∀ fileName e,
      (env.newFileInfo fileName none "" s.world).1.2 = none →
      (queryStorageInfoWithTracker env
        env.TRACKER_PROTO_CMD_SERVICE_QUERY_STORE_WITHOUT_GROUP_ONE "" ""
        { s with world := (env.newFileInfo fileName none "" s.world).2 }).ret = Res.err e →
      (UploadByFilename env fileName s).ret = ("", some e) ∧
      (UploadByFilename env fileName s).events =
        Event.newFileInfo fileName none "" (env.newFileInfo fileName none "" s.world).1.1 none ::
          ((queryStorageInfoWithTracker env
            env.TRACKER_PROTO_CMD_SERVICE_QUERY_STORE_WITHOUT_GROUP_ONE "" ""
            { s with world := (env.newFileInfo fileName none "" s.world).2 }).events ++
          [Event.fileInfoClose (env.newFileInfo fileName none "" s.world).1.1])) ∧
    (∀ buffer fileExtName e,
      (env.newFileInfo "" buffer fileExtName s.world).1.2 = none →
      (queryStorageInfoWithTracker env
        env.TRACKER_PROTO_CMD_SERVICE_QUERY_STORE_WITHOUT_GROUP_ONE "" ""
        { s with world := (env.newFileInfo "" buffer fileExtName s.world).2 }).ret = Res.err e →
      (UploadByBuffer env buffer fileExtName s).ret = ("", some e) ∧
      (UploadByBuffer env buffer fileExtName s).events =
        Event.newFileInfo "" buffer fileExtName
            (env.newFileInfo "" buffer fileExtName s.world).1.1 none ::
          ((queryStorageInfoWithTracker env
            env.TRACKER_PROTO_CMD_SERVICE_QUERY_STORE_WITHOUT_GROUP_ONE "" ""
            { s with world := (env.newFileInfo "" buffer fileExtName s.world).2 }).events ++
          [Event.fileInfoClose (env.newFileInfo "" buffer fileExtName s.world).1.1])) ∧
    (∀ cmd groupName remoteFilename (s2 : State σ),
      ∀ ev ∈ (queryStorageInfoWithTracker env cmd groupName remoteFilename s2).events,
        ev.isStorageAccess = false) := by
  have hbody : ∀ fileName buffer fileExtName e,
      (env.newFileInfo fileName buffer fileExtName s.world).1.2 = none →
      (queryStorageInfoWithTracker env
        env.TRACKER_PROTO_CMD_SERVICE_QUERY_STORE_WITHOUT_GROUP_ONE "" ""
        { s with world := (env.newFileInfo fileName buffer fileExtName s.world).2 }).ret
          = Res.err e →
      (uploadBody env (env.newFileInfo fileName buffer fileExtName s.world).1.1 none
          { s with world := (env.newFileInfo fileName buffer fileExtName s.world).2 }) =
        ⟨("", some e),
          (queryStorageInfoWithTracker env
            env.TRACKER_PROTO_CMD_SERVICE_QUERY_STORE_WITHOUT_GROUP_ONE "" ""
            { s with world := (env.newFileInfo fileName buffer fileExtName s.world).2 }).events,
          (queryStorageInfoWithTracker env
            env.TRACKER_PROTO_CMD_SERVICE_QUERY_STORE_WITHOUT_GROUP_ONE "" ""
            { s with world := (env.newFileInfo fileName buffer fileExtName s.world).2 }).state⟩ := by
    intro fileName buffer fileExtName e _ hq
    simp [uploadBody, hq]
  refine ⟨?_, ?_, ?_, ?_, ?_⟩
  · intro call hmem
    obtain ⟨before, q, d, after, h1, h2, h3, h4, h5⟩ := Call_parts env call s
    rw [h1] at hmem ⊢
    exact trackerFirst_of_parts before q d after h2 h3 h4 h5 hmem
  · intro fileId g r e h hq
    refine ⟨?_, ?_, ?_, ?_⟩
    · intro localFilename offset downloadBytes
      simp [DownloadToFile, h, Res.lift, hq]
    · intro offset downloadBytes
      simp [DownloadToBuffer, h, Res.lift, hq]
    · intro buffer offset downloadBytes
      simp [DownloadToAllocatedBuffer, h, Res.lift, hq]
    · simp [DeleteFile, h, Res.lift, hq]
  · intro fileName e hn hq
    rw [UploadByFilename_run, hn]
    simp only [liftErr]
    rw [hbody fileName none "" e hn hq]
    exact ⟨rfl, rfl⟩
  · intro buffer fileExtName e hn hq
    rw [UploadByBuffer_run, hn]
    simp only [liftErr]
    rw [hbody "" buffer fileExtName e hn hq]
    exact ⟨rfl, rfl⟩
  · intro cmd g r s2
    exact (queryStorageInfoWithTracker_spec env cmd g r s2).1

/-- On a healthy cluster `DeleteFile` requests its storage connection after the
finished tracker task; on a cluster whose connections fail in `SendReq` the
tracker query fails and `DeleteFile` and `UploadByFilename` return its error
with the events of the query alone. -/
theorem tracker_query_completes_first_witness :
    (Event.lock ∈ (Call.run healthy.env (Call.DeleteFile "group1/M00/00/00/a.go") state1).events ∧
      ∃ (pre : List Event) (p : PoolId) (c : Conn) (post : List Event),
        (Call.run healthy.env (Call.DeleteFile "group1/M00/00/00/a.go") state1).events =
          pre ++ [Event.poolGet p (Res.ok c), Event.sendReq c none, Event.recvRes c none,
            Event.close c] ++ Event.lock :: post ∧
        ∀ ev ∈ pre, ev.isStorageAccess = false) ∧
    (sendFails.env.splitFileId "group1/M00/00/00/a.go" = Except.ok ("group1", "M00/00/00/a.go") ∧
      (queryStorageInfoWithTracker sendFails.env
        sendFails.env.TRACKER_PROTO_CMD_SERVICE_QUERY_FETCH_ONE "group1" "M00/00/00/a.go"
        state1).ret = Res.err (Err.ext "broken pipe") ∧
      DeleteFile sendFails.env "group1/M00/00/00/a.go" state1 =
        ⟨some (Err.ext "broken pipe"),
          (queryStorageInfoWithTracker sendFails.env
            sendFails.env.TRACKER_PROTO_CMD_SERVICE_QUERY_FETCH_ONE "group1" "M00/00/00/a.go"
            state1).events,
          (queryStorageInfoWithTracker sendFails.env
            sendFails.env.TRACKER_PROTO_CMD_SERVICE_QUERY_FETCH_ONE "group1" "M00/00/00/a.go"
            state1).state⟩) ∧
    ((sendFails.env.newFileInfo "client_test.go" none "" state1.world).1.2 = none ∧
      (UploadByFilename sendFails.env "client_test.go" state1).ret =
        ("", some (Err.ext "broken pipe"))) ∧
    ((sendFails.env.newFileInfo "" (some [104, 105]) "go" state1.world).1.2 = none ∧
      (UploadByBuffer sendFails.env (some [104, 105]) "go" state1).ret =
        ("", some (Err.ext "broken pipe"))) :=
  ⟨⟨by decide,
      (tracker_query_completes_first healthy.env state1).1
        (Call.DeleteFile "group1/M00/00/00/a.go") (by decide)⟩,
    ⟨rfl, rfl,
      ((tracker_query_completes_first sendFails.env state1).2.1 "group1/M00/00/00/a.go" "group1"
        "M00/00/00/a.go" (Err.ext "broken pipe") rfl rfl).2.2.2⟩,
    ⟨rfl, ((tracker_query_completes_first sendFails.env state1).2.2.1 "client_test.go"
      (Err.ext "broken pipe") rfl rfl).1⟩,
    ⟨rfl, ((tracker_query_completes_first sendFails.env state1).2.2.2.1 (some [104, 105]) "go"
      (Err.ext "broken pipe") rfl rfl).1⟩⟩

end FdfsClient
